import Mathlib

/-!
# PKCS#7 SignedData signing (`pkcs7/sign.go`)

A shallow embedding of `Sign` and `Sign2` from `src/pkcs7/sign.go`.

* Byte slices are lists of naturals (one element per byte).
* The Go standard library is not part of the repository: `sha256`, `asn1.Marshal`,
  `rsa.SignPKCS1v15` (with `rand.Reader`) and `time.Now` are the fields of `Env`, so every
  theorem holds for whatever these primitives compute.
* The object identifier constants (`oidSHA256`, ...) and the ASN.1 structure types are declared
  in another file of the package. The constants are fields of `Env` as well; the structures
  carry the fields that the composite literals of `Sign2` set.
* A Go function result `([]byte, error)` is kept as a pair of options (`none` is `nil`), and an
  index expression on an empty slice is a run-time panic.
-/

namespace pkcs7

set_option maxRecDepth 100000

/-- A Go `[]byte`. -/
abbrev Octets := List Nat

/-- A Go `error` value. -/
abbrev Error := String

/-- Type `asn1.ObjectIdentifier` (`[]int`). -/
abbrev ObjectIdentifier := List Nat

/-- Type `asn1.RawValue`; fields left out of a composite literal take their zero value. -/
structure RawValue where
  Class : Nat := 0
  Tag : Nat := 0
  IsCompound : Bool := false
  Bytes : Octets := []
  FullBytes : Octets := []
deriving DecidableEq, Repr

/-- Type `time.Time`: an instant and the offset (seconds east of UTC) of its location. -/
structure Time where
  unix : Int
  offset : Int
deriving DecidableEq, Repr

/-- Method `Time.UTC`: the same instant with the location set to UTC. -/
def Time.UTC (t : Time) : Time := { t with offset := 0 }

/-- The fields of `x509.Certificate` that `Sign2` reads. -/
structure Certificate where
  Raw : Octets
  RawIssuer : Octets
  SerialNumber : Int
deriving DecidableEq, Repr

/-- Type `rsa.PrivateKey` (modulus, public and private exponent, prime factors). -/
structure PrivateKey where
  N : Nat
  E : Nat
  D : Nat
  Primes : List Nat := []
deriving DecidableEq, Repr

/-- Type `crypto.Hash`, the digest designator handed to the signing primitive. -/
inductive CryptoHash where
  | MD5
  | SHA1
  | SHA256
  | SHA512
deriving DecidableEq, Repr

/-- The dynamic types of the `interface{}` value handed to `NewAttribute` in `Sign2`. -/
inductive AttributeValue where
  | oid (o : ObjectIdentifier)
  | time (t : Time)
  | octets (b : Octets)
deriving DecidableEq, Repr

/-- Modelled from the spec: the `Attribute` type is declared outside `sign.go`; the data model
describes an authenticated attribute as an object identifier together with the value whose DER
encoding it carries. The encoding itself is produced when the attribute list is marshalled. -/
structure Attribute where
  Typ : ObjectIdentifier
  Value : AttributeValue
deriving DecidableEq, Repr

/-- Modelled from the spec: `NewAttribute` is declared outside `sign.go`. It returns a single
value (it is used inside a composite literal), so it cannot report an error: it pairs the object
identifier with the value. -/
def NewAttribute (typ : ObjectIdentifier) (val : AttributeValue) : Attribute :=
  { Typ := typ, Value := val }

/-- Type `Attributes`, the attribute list of a `SignerInfo`. -/
abbrev Attributes := List Attribute

/-- Type `AlgorithmIdentifier`, as used in the composite literals of `Sign2`. -/
structure AlgorithmIdentifier where
  Algorithm : ObjectIdentifier
  Parameters : RawValue := {}
deriving DecidableEq, Repr

/-- Type `ContentInfo`; `Sign2` sets the content type only. -/
structure ContentInfo where
  ContentType : ObjectIdentifier
deriving DecidableEq, Repr

/-- Type `IssuerAndSerialNumber`. -/
structure IssuerAndSerialNumber where
  Issuer : RawValue
  SerialNumber : Int
deriving DecidableEq, Repr

/-- Type `SignerInfo`, with the fields of the composite literal in `Sign2`. -/
structure SignerInfo where
  Version : Int
  SignedIdentifier : IssuerAndSerialNumber
  DigestAlgorithm : AlgorithmIdentifier
  AuthenticatedAttributes : Attributes
  DigestEncryptionAlgorithm : AlgorithmIdentifier
  EncryptedDigest : Octets
  UnauthenticatedAttributes : Int
deriving DecidableEq, Repr

/-- Type `SignedData`, with the fields of the composite literal in `Sign2`. -/
structure SignedData where
  Version : Int
  DigestAlgorithms : List AlgorithmIdentifier
  ContentInfo : ContentInfo
  Certificates : RawValue
  SignerInfos : List SignerInfo
deriving DecidableEq, Repr

/-- Type `SignedDataWrapper`, the outer envelope. -/
structure SignedDataWrapper where
  Oid : ObjectIdentifier
  SignedData : RawValue
deriving DecidableEq, Repr

/-- The three dynamic types of the `interface{}` argument of `asn1.Marshal` in `Sign2`. -/
inductive Value where
  | attributes (a : Attributes)
  | signedData (s : SignedData)
  | signedDataWrapper (w : SignedDataWrapper)
deriving DecidableEq, Repr

/-- The standard-library primitives and package-level constants `Sign2` depends on. -/
structure Env where
  -- the SHA-256 function computed by a `sha256.New()` hash object
  sha256 : Octets → Octets
  -- `asn1.Marshal`: `(bytes, nil)` or `(nil, err)`
  Marshal : Value → Except Error Octets
  -- `rsa.SignPKCS1v15` applied to `rand.Reader`: `(signature, nil)` or `(nil, err)`
  SignPKCS1v15 : PrivateKey → CryptoHash → Octets → Except Error Octets
  -- the reading of `time.Now()`
  now : Time
  -- the package-level object identifier constants
  oidSHA256 : ObjectIdentifier
  oidPKCS7Data : ObjectIdentifier
  oidPKCS7SignedData : ObjectIdentifier
  oidPKCS1RSAEncryption : ObjectIdentifier
  oidPKCS9ContentType : ObjectIdentifier
  oidPKCS9SigningTime : ObjectIdentifier
  oidPKCS9MessageDigest : ObjectIdentifier

/-- An `io.Reader`, as the results its successive `Read` calls deliver: chunks of data, ended by
end-of-file or by an error. -/
inductive Reader where
  | EOF
  | data (p : Octets) (next : Reader)
  | err (e : Error)
deriving DecidableEq, Repr

/-- All the bytes a reader delivers before it ends. -/
def Reader.content : Reader → Octets
  | .EOF => []
  | .data p next => p ++ next.content
  | .err _ => []

/-- The error that ends a reader, `none` when it ends with end-of-file. -/
def Reader.failure : Reader → Option Error
  | .EOF => none
  | .data _ next => next.failure
  | .err e => some e

/-- A running hash object (`hash.Hash`): the bytes written to it so far. -/
structure Digest where
  written : Octets
deriving DecidableEq, Repr

/-- Function `sha256.New`. -/
def sha256New : Digest := { written := [] }

/-- Method `Write` of the hash object; it never fails. -/
def Digest.Write (h : Digest) (p : Octets) : Digest := { written := h.written ++ p }

/-- Method `Sum` of the hash object: appends the digest of everything written to `b`. -/
def Digest.Sum (env : Env) (h : Digest) (b : Octets) : Octets := b ++ env.sha256 h.written

/-- Function `io.Copy(hash, r)`: every chunk read is written to the hash object; the copy stops
at end-of-file (no error) or at the first read error (returned). -/
def ioCopy : Digest → Reader → Digest × Option Error
  | h, .EOF => (h, none)
  | h, .data p next => ioCopy (h.Write p) next
  | h, .err e => (h, some e)

/-- The state of a run after a group of statements: it goes on with a value, it has executed a
`return out, err`, or it has panicked. -/
inductive Step (α : Type) where
  | next (a : α)
  | ret (out : Option Octets) (err : Option Error)
  | panic
deriving DecidableEq, Repr

/-- What a call of `Sign2` does: it returns the pair `(out, err)`, or panics. -/
inductive Outcome where
  | ret (out : Option Octets) (err : Option Error)
  | panic
deriving DecidableEq, Repr

/-- Lines 26-64 of `Sign2`: digest the stream, gather the certificate bytes, build `signedData`. -/
def buildSignedData (env : Env) (r : Reader) (cert : Certificate)
    (intermediate : Option Certificate) : Step SignedData :=
  let hash := sha256New
  match ioCopy hash r with
  | (_, some err) => .ret none (some err)
  | (hash, none) =>
    let messageDigest := hash.Sum env []
    let raw :=
      match intermediate with
      | some i => cert.Raw ++ i.Raw
      | none => cert.Raw
    .next
      { Version := 1
        DigestAlgorithms :=
          [{ Algorithm := env.oidSHA256, Parameters := { Tag := 5 } }]
        ContentInfo := { ContentType := env.oidPKCS7Data }
        Certificates := { Class := 2, Tag := 0, Bytes := raw, IsCompound := true }
        SignerInfos :=
          [{ Version := 1
             SignedIdentifier :=
               { Issuer := { FullBytes := cert.RawIssuer }
                 SerialNumber := cert.SerialNumber }
             DigestAlgorithm := { Algorithm := env.oidSHA256, Parameters := { Tag := 5 } }
             AuthenticatedAttributes :=
               [ NewAttribute env.oidPKCS9ContentType (.oid env.oidPKCS7Data),
                 NewAttribute env.oidPKCS9SigningTime (.time env.now.UTC),
                 NewAttribute env.oidPKCS9MessageDigest (.octets messageDigest) ]
             DigestEncryptionAlgorithm :=
               { Algorithm := env.oidPKCS1RSAEncryption, Parameters := { Tag := 5 } }
             EncryptedDigest := []
             UnauthenticatedAttributes := 0 }] }

/-- Lines 66-88 of `Sign2`: marshal the authenticated attributes of `SignerInfos[0]`, overwrite
the first byte of the encoding with `0x31`, digest it, sign the digest and store the signature
in `SignerInfos[0].EncryptedDigest`. Line 82 puts the original first byte back into the buffer,
which is not read again. -/
def signAttributes (env : Env) (priv : PrivateKey) (signedData : SignedData) :
    Step SignedData :=
  match signedData.SignerInfos with
  | [] => .panic
  | signerInfo :: others =>
    match env.Marshal (.attributes signerInfo.AuthenticatedAttributes) with
    | .error err => .ret none (some err)
    | .ok encodedAuthenticatedAttributes =>
      match encodedAuthenticatedAttributes with
      | [] => .panic
      | _originalFirstByte :: tail =>
        let encodedAuthenticatedAttributes := 0x31 :: tail
        let hash := sha256New
        let hash := hash.Write encodedAuthenticatedAttributes
        let attributesDigest := hash.Sum env []
        match env.SignPKCS1v15 priv CryptoHash.SHA256 attributesDigest with
        | .error err => .ret none (some err)
        | .ok encryptedDigest =>
          .next { signedData with
                  SignerInfos :=
                    { signerInfo with EncryptedDigest := encryptedDigest } :: others }

/-- Lines 90-100 of `Sign2`: marshal `signedData`, wrap the bytes and marshal the wrapper. The
last line returns the result pair of `asn1.Marshal` as it is: `(bytes, nil)` or `(nil, err)`. -/
def marshalEnvelope (env : Env) (signedData : SignedData) : Outcome :=
  match env.Marshal (.signedData signedData) with
  | .error err => .ret none (some err)
  | .ok encodedSignedData =>
    let signedDataWrapper : SignedDataWrapper :=
      { Oid := env.oidPKCS7SignedData
        SignedData := { Class := 2, Tag := 0, Bytes := encodedSignedData, IsCompound := true } }
    match env.Marshal (.signedDataWrapper signedDataWrapper) with
    | .ok out => .ret (some out) none
    | .error err => .ret none (some err)

/-- Function `Sign2`: reader, certificate, private key and optional intermediate certificate. -/
def Sign2 (env : Env) (r : Reader) (cert : Certificate) (priv : PrivateKey)
    (intermediate : Option Certificate) : Outcome :=
  match buildSignedData env r cert intermediate with
  | .ret out err => .ret out err
  | .panic => .panic
  | .next signedData =>
    match signAttributes env priv signedData with
    | .ret out err => .ret out err
    | .panic => .panic
    | .next signedData => marshalEnvelope env signedData

/-- Function `Sign`: `Sign2` with a nil intermediate certificate. -/
def Sign (env : Env) (r : Reader) (cert : Certificate) (priv : PrivateKey) : Outcome :=
  Sign2 env r cert priv none

/-- The `signedData` value a run of `Sign2` hands to `asn1.Marshal` on line 90, when the run
gets that far. -/
def marshalledSignedData (env : Env) (r : Reader) (cert : Certificate) (priv : PrivateKey)
    (intermediate : Option Certificate) : Option SignedData :=
  match buildSignedData env r cert intermediate with
  | .next signedData =>
    match signAttributes env priv signedData with
    | .next signedData => some signedData
    | _ => none
  | _ => none

/-! ## A concrete environment

A small instance of `Env` on which the definitions can be evaluated: a DER-style
tag-length-value encoder, a 32-byte checksum in the place of SHA-256, and RSA signing with
PKCS#1 v1.5 padding under a test key whose two prime factors are publicly known. -/

/-- DER identifier and length octets in front of a body (lengths below 65536). -/
def demoTLV (tag : Nat) (body : Octets) : Except Error Octets :=
  if body.length < 128 then .ok (tag :: body.length :: body)
  else if body.length < 256 then .ok (tag :: 0x81 :: body.length :: body)
  else if body.length < 65536 then
    .ok (tag :: 0x82 :: body.length / 256 :: body.length % 256 :: body)
  else .error "asn1: structure error: length too large"

/-- Encodes every element of a list and concatenates the encodings. -/
def demoConcat {α : Type} (f : α → Except Error Octets) : List α → Except Error Octets
  | [] => .ok []
  | a :: rest =>
    match f a with
    | .error e => .error e
    | .ok x =>
      match demoConcat f rest with
      | .error e => .error e
      | .ok y => .ok (x ++ y)

/-- A raw value: its full bytes when given, else identifier, length and content bytes,
without any look at the content. -/
def demoRawValue (v : RawValue) : Except Error Octets :=
  if v.FullBytes ≠ [] then .ok v.FullBytes
  else demoTLV (v.Class * 64 + (if v.IsCompound then 32 else 0) + v.Tag) v.Bytes

/-- Base-128 digits of a number below 2^28, the high bit set on all but the last. -/
def demoBase128 (n : Nat) : Octets :=
  if n < 128 then [n]
  else if n < 16384 then [128 + n / 128, n % 128]
  else if n < 2097152 then [128 + n / 16384, 128 + n / 128 % 128, n % 128]
  else [128 + n / 2097152 % 128, 128 + n / 16384 % 128, 128 + n / 128 % 128, n % 128]

/-- An object identifier needs at least two components; the first two share a byte. -/
def demoOID : ObjectIdentifier → Except Error Octets
  | a :: b :: rest => demoTLV 6 ((40 * a + b) % 256 :: (rest.map demoBase128).flatten)
  | _ => .error "asn1: structure error: invalid object identifier"

/-- A small integer, one content byte. -/
def demoInt (n : Int) : Except Error Octets := demoTLV 2 [n.toNat % 256]

/-- An algorithm identifier: a sequence of the identifier and its parameters. -/
def demoAlgorithm (a : AlgorithmIdentifier) : Except Error Octets :=
  match demoOID a.Algorithm with
  | .error e => .error e
  | .ok o =>
    match demoRawValue a.Parameters with
    | .error e => .error e
    | .ok p => demoTLV 0x30 (o ++ p)

/-- The value of an attribute. -/
def demoAttributeValue : AttributeValue → Except Error Octets
  | .oid o => demoOID o
  | .time t => demoTLV 23 [t.unix.toNat % 256]
  | .octets b => demoTLV 4 b

/-- An attribute: a sequence of its type and the set holding its value. -/
def demoAttribute (a : Attribute) : Except Error Octets :=
  match demoOID a.Typ with
  | .error e => .error e
  | .ok o =>
    match demoAttributeValue a.Value with
    | .error e => .error e
    | .ok v =>
      match demoTLV 0x31 v with
      | .error e => .error e
      | .ok s => demoTLV 0x30 (o ++ s)

/-- A signer info, its attribute list under the context tag 0. -/
def demoSignerInfo (s : SignerInfo) : Except Error Octets :=
  match demoInt s.Version, demoRawValue s.SignedIdentifier.Issuer,
      demoInt s.SignedIdentifier.SerialNumber, demoAlgorithm s.DigestAlgorithm,
      demoConcat demoAttribute s.AuthenticatedAttributes,
      demoAlgorithm s.DigestEncryptionAlgorithm, demoTLV 4 s.EncryptedDigest with
  | .ok v, .ok i, .ok n, .ok d, .ok a, .ok e, .ok sig =>
    match demoTLV 0x30 (i ++ n), demoTLV 0xA0 a with
    | .ok isn, .ok attrs => demoTLV 0x30 (v ++ isn ++ d ++ attrs ++ e ++ sig)
    | _, _ => .error "asn1: structure error: length too large"
  | _, _, _, _, _, _, _ => .error "asn1: structure error: signer info"

/-- The body of the encoding of a value, before the outer sequence header. -/
def demoBody : Value → Except Error Octets
  | .attributes a => demoConcat demoAttribute a
  | .signedData s =>
    match demoInt s.Version, demoConcat demoAlgorithm s.DigestAlgorithms,
        demoOID s.ContentInfo.ContentType, demoRawValue s.Certificates,
        demoConcat demoSignerInfo s.SignerInfos with
    | .ok v, .ok d, .ok c, .ok certs, .ok infos =>
      match demoTLV 0x31 d, demoTLV 0x30 c, demoTLV 0x31 infos with
      | .ok ds, .ok ci, .ok si => .ok (v ++ ds ++ ci ++ certs ++ si)
      | _, _, _ => .error "asn1: structure error: length too large"
    | _, _, _, _, _ => .error "asn1: structure error: signed data"
  | .signedDataWrapper w =>
    match demoOID w.Oid, demoRawValue w.SignedData with
    | .ok o, .ok s => .ok (o ++ s)
    | _, _ => .error "asn1: structure error: wrapper"

/-- The stand-in for `asn1.Marshal`: a sequence header in front of the body. -/
def demoMarshal (v : Value) : Except Error Octets :=
  match demoBody v with
  | .error e => .error e
  | .ok body => demoTLV 0x30 body

/-- The stand-in for SHA-256: 32 bytes of running checksums of the message. -/
def demoSha256 (m : Octets) : Octets :=
  (List.range 32).map fun i => m.foldl (fun acc b => (acc * 31 + b + i) % 256) (i + 7)

/-- The length of the digest of a hash function and the DER prefix of its DigestInfo. -/
def demoHashInfo : CryptoHash → Nat × Octets
  | .MD5 => (16, [0x30, 0x20, 0x30, 0x0c, 0x06, 0x08, 0x2a, 0x86, 0x48, 0x86, 0xf7, 0x0d, 0x02,
      0x05, 0x05, 0x00, 0x04, 0x10])
  | .SHA1 => (20, [0x30, 0x21, 0x30, 0x09, 0x06, 0x05, 0x2b, 0x0e, 0x03, 0x02, 0x1a, 0x05, 0x00,
      0x04, 0x14])
  | .SHA256 => (32, [0x30, 0x31, 0x30, 0x0d, 0x06, 0x09, 0x60, 0x86, 0x48, 0x01, 0x65, 0x03,
      0x04, 0x02, 0x01, 0x05, 0x00, 0x04, 0x20])
  | .SHA512 => (64, [0x30, 0x51, 0x30, 0x0d, 0x06, 0x09, 0x60, 0x86, 0x48, 0x01, 0x65, 0x03,
      0x04, 0x02, 0x03, 0x05, 0x00, 0x04, 0x40])

/-- The number of bits of a number, for numbers of at most `fuel` bits. -/
def demoBitLen : Nat → Nat → Nat
  | 0, _ => 0
  | fuel + 1, n => if n = 0 then 0 else demoBitLen fuel (n / 2) + 1

/-- Square-and-multiply: `acc * b ^ e % n`, for exponents of at most `fuel` bits. -/
def demoPowMod (n : Nat) : Nat → Nat → Nat → Nat → Nat
  | 0, _, _, acc => acc
  | fuel + 1, b, e, acc =>
    if e = 0 then acc
    else demoPowMod n fuel (b * b % n) (e / 2) (if e % 2 = 1 then acc * b % n else acc)

/-- A byte string read as a big-endian number. -/
def demoFromBytes (b : Octets) : Nat := b.foldl (fun acc x => acc * 256 + x) 0

/-- A number written as `k` big-endian bytes. -/
def demoToBytes (k c : Nat) : Octets :=
  (List.range k).map fun i => (c >>> (8 * (k - 1 - i))) % 256

/-- The stand-in for `rsa.SignPKCS1v15`: the digest must have the length of the designated
hash, the modulus must have room for the padded DigestInfo (eleven bytes more than the
DigestInfo), and the signature is the padded block raised to the private exponent. -/
def demoSign (priv : PrivateKey) (h : CryptoHash) (digest : Octets) : Except Error Octets :=
  if digest.length ≠ (demoHashInfo h).1 then .error "crypto/rsa: input must be hashed message"
  else
    let k := (demoBitLen 8192 priv.N + 7) / 8
    let tLen := (demoHashInfo h).2.length + (demoHashInfo h).1
    if k < tLen + 11 then .error "crypto/rsa: message too long for RSA key size"
    else
      let em := [0, 1] ++ List.replicate (k - tLen - 3) 0xff ++ [0] ++ (demoHashInfo h).2 ++ digest
      .ok (demoToBytes k (demoPowMod priv.N 8192 (demoFromBytes em) priv.D 1))

/-- The inverse of `e` modulo `m`, for a prime `e` that does not divide `m`. -/
def demoInverse (e m : Nat) : Nat :=
  (1 + (e - demoPowMod e 64 (m % e) (e - 2) 1) % e * m) / e

/-- The concrete environment, with the object identifiers of PKCS#7, PKCS#9 and NIST. -/
def demoEnv : Env :=
  { sha256 := demoSha256
    Marshal := demoMarshal
    SignPKCS1v15 := demoSign
    now := { unix := 1700000000, offset := 3600 }
    oidSHA256 := [2, 16, 840, 1, 101, 3, 4, 2, 1]
    oidPKCS7Data := [1, 2, 840, 113549, 1, 7, 1]
    oidPKCS7SignedData := [1, 2, 840, 113549, 1, 7, 2]
    oidPKCS1RSAEncryption := [1, 2, 840, 113549, 1, 1, 1]
    oidPKCS9ContentType := [1, 2, 840, 113549, 1, 9, 3]
    oidPKCS9SigningTime := [1, 2, 840, 113549, 1, 9, 5]
    oidPKCS9MessageDigest := [1, 2, 840, 113549, 1, 9, 4] }

/-- A signer certificate. -/
def demoCert : Certificate :=
  { Raw := [0x30, 0x03, 0x02, 0x01, 0x07], RawIssuer := [0x30, 0x00], SerialNumber := 7 }

/-- An intermediate certificate. -/
def demoIntermediate : Certificate :=
  { Raw := [0x30, 0x03, 0x02, 0x01, 0x09], RawIssuer := [0x30, 0x00], SerialNumber := 9 }

/-- A certificate whose raw encoding is empty. -/
def demoEmptyCert : Certificate :=
  { Raw := [], RawIssuer := [0x30, 0x00], SerialNumber := 7 }

/-- A certificate whose raw encoding is cut short (a header announcing five content bytes). -/
def demoTruncatedCert : Certificate :=
  { Raw := [0x30, 0x05, 0x02], RawIssuer := [0x30, 0x00], SerialNumber := 7 }

/-- The Mersenne prime `2^521 - 1`. -/
def demoP : Nat := (1 <<< 521) - 1

/-- The Mersenne prime `2^607 - 1`. -/
def demoQ : Nat := (1 <<< 607) - 1

/-- A test key of 1128 bits: the modulus is the product of two publicly known primes, the public
exponent is 65537 and the private exponent is its inverse modulo `(p - 1) * (q - 1)`. -/
def demoKey : PrivateKey :=
  { N := demoP * demoQ
    E := 65537
    D := demoInverse 65537 ((demoP - 1) * (demoQ - 1))
    Primes := [demoP, demoQ] }

/-- A reader delivering "hi" and "!" in two chunks, then end-of-file. -/
def demoReader : Reader := .data [104, 105] (.data [33] .EOF)

/-- A reader that fails after one chunk. -/
def demoBrokenReader : Reader := .data [104, 105] (.err "unexpected EOF")

/-- A key too small for the signing primitive. -/
def demoSmallKey : PrivateKey := { N := 15, E := 3, D := 3, Primes := [3, 5] }

/-- The envelope computed for `demoReader`, `demoCert` and `demoKey`, no intermediate. -/
def demoEnvelope : Octets :=
  [48, 130, 1, 90, 6, 9, 42, 134, 72, 134, 247, 13, 1, 7, 2, 160, 130, 1, 75, 48, 130, 1,
   71, 2, 1, 1, 49, 15, 48, 13, 6, 9, 96, 134, 72, 1, 101, 3, 4, 2, 1, 5, 0, 48, 11, 6, 9,
   42, 134, 72, 134, 247, 13, 1, 7, 1, 160, 5, 48, 3, 2, 1, 7, 49, 130, 1, 27, 48, 130, 1,
   23, 2, 1, 1, 48, 5, 48, 0, 2, 1, 7, 48, 13, 6, 9, 96, 134, 72, 1, 101, 3, 4, 2, 1, 5, 0,
   160, 93, 48, 24, 6, 9, 42, 134, 72, 134, 247, 13, 1, 9, 3, 49, 11, 6, 9, 42, 134, 72,
   134, 247, 13, 1, 7, 1, 48, 16, 6, 9, 42, 134, 72, 134, 247, 13, 1, 9, 5, 49, 3, 23, 1, 0,
   48, 47, 6, 9, 42, 134, 72, 134, 247, 13, 1, 9, 4, 49, 34, 4, 32, 217, 25, 89, 153, 217,
   25, 89, 153, 217, 25, 89, 153, 217, 25, 89, 153, 217, 25, 89, 153, 217, 25, 89, 153, 217,
   25, 89, 153, 217, 25, 89, 153, 48, 13, 6, 9, 42, 134, 72, 134, 247, 13, 1, 1, 1, 5, 0, 4,
   129, 141, 234, 13, 49, 149, 89, 124, 237, 102, 190, 205, 97, 117, 178, 159, 95, 94, 51,
   133, 127, 77, 49, 216, 85, 33, 215, 21, 243, 231, 249, 107, 31, 6, 192, 74, 242, 159,
   159, 237, 98, 134, 71, 154, 163, 72, 57, 197, 32, 238, 236, 9, 58, 45, 23, 37, 205, 186,
   237, 112, 221, 43, 234, 124, 0, 16, 224, 33, 54, 124, 25, 141, 247, 41, 25, 188, 122,
   132, 100, 98, 236, 124, 1, 51, 184, 214, 231, 193, 16, 89, 160, 67, 9, 10, 220, 22, 54,
   233, 122, 61, 199, 91, 8, 111, 185, 57, 127, 7, 138, 6, 57, 113, 109, 191, 71, 158, 106,
   206, 217, 14, 171, 68, 118, 97, 204, 105, 12, 84, 73, 208, 134, 108, 195, 172, 122, 222,
   56, 3, 29, 69, 184, 213, 188]

/-- The envelope computed for the certificate with an empty raw encoding. -/
def demoEmptyCertEnvelope : Octets :=
  [48, 130, 1, 85, 6, 9, 42, 134, 72, 134, 247, 13, 1, 7, 2, 160, 130, 1, 70, 48, 130, 1,
   66, 2, 1, 1, 49, 15, 48, 13, 6, 9, 96, 134, 72, 1, 101, 3, 4, 2, 1, 5, 0, 48, 11, 6, 9,
   42, 134, 72, 134, 247, 13, 1, 7, 1, 160, 0, 49, 130, 1, 27, 48, 130, 1, 23, 2, 1, 1, 48,
   5, 48, 0, 2, 1, 7, 48, 13, 6, 9, 96, 134, 72, 1, 101, 3, 4, 2, 1, 5, 0, 160, 93, 48, 24,
   6, 9, 42, 134, 72, 134, 247, 13, 1, 9, 3, 49, 11, 6, 9, 42, 134, 72, 134, 247, 13, 1, 7,
   1, 48, 16, 6, 9, 42, 134, 72, 134, 247, 13, 1, 9, 5, 49, 3, 23, 1, 0, 48, 47, 6, 9, 42,
   134, 72, 134, 247, 13, 1, 9, 4, 49, 34, 4, 32, 217, 25, 89, 153, 217, 25, 89, 153, 217,
   25, 89, 153, 217, 25, 89, 153, 217, 25, 89, 153, 217, 25, 89, 153, 217, 25, 89, 153, 217,
   25, 89, 153, 48, 13, 6, 9, 42, 134, 72, 134, 247, 13, 1, 1, 1, 5, 0, 4, 129, 141, 234,
   13, 49, 149, 89, 124, 237, 102, 190, 205, 97, 117, 178, 159, 95, 94, 51, 133, 127, 77,
   49, 216, 85, 33, 215, 21, 243, 231, 249, 107, 31, 6, 192, 74, 242, 159, 159, 237, 98,
   134, 71, 154, 163, 72, 57, 197, 32, 238, 236, 9, 58, 45, 23, 37, 205, 186, 237, 112, 221,
   43, 234, 124, 0, 16, 224, 33, 54, 124, 25, 141, 247, 41, 25, 188, 122, 132, 100, 98, 236,
   124, 1, 51, 184, 214, 231, 193, 16, 89, 160, 67, 9, 10, 220, 22, 54, 233, 122, 61, 199,
   91, 8, 111, 185, 57, 127, 7, 138, 6, 57, 113, 109, 191, 71, 158, 106, 206, 217, 14, 171,
   68, 118, 97, 204, 105, 12, 84, 73, 208, 134, 108, 195, 172, 122, 222, 56, 3, 29, 69, 184,
   213, 188]

/-- The envelope computed for the certificate with a truncated raw encoding. -/
def demoTruncatedCertEnvelope : Octets :=
  [48, 130, 1, 88, 6, 9, 42, 134, 72, 134, 247, 13, 1, 7, 2, 160, 130, 1, 73, 48, 130, 1,
   69, 2, 1, 1, 49, 15, 48, 13, 6, 9, 96, 134, 72, 1, 101, 3, 4, 2, 1, 5, 0, 48, 11, 6, 9,
   42, 134, 72, 134, 247, 13, 1, 7, 1, 160, 3, 48, 5, 2, 49, 130, 1, 27, 48, 130, 1, 23, 2,
   1, 1, 48, 5, 48, 0, 2, 1, 7, 48, 13, 6, 9, 96, 134, 72, 1, 101, 3, 4, 2, 1, 5, 0, 160,
   93, 48, 24, 6, 9, 42, 134, 72, 134, 247, 13, 1, 9, 3, 49, 11, 6, 9, 42, 134, 72, 134,
   247, 13, 1, 7, 1, 48, 16, 6, 9, 42, 134, 72, 134, 247, 13, 1, 9, 5, 49, 3, 23, 1, 0, 48,
   47, 6, 9, 42, 134, 72, 134, 247, 13, 1, 9, 4, 49, 34, 4, 32, 217, 25, 89, 153, 217, 25,
   89, 153, 217, 25, 89, 153, 217, 25, 89, 153, 217, 25, 89, 153, 217, 25, 89, 153, 217, 25,
   89, 153, 217, 25, 89, 153, 48, 13, 6, 9, 42, 134, 72, 134, 247, 13, 1, 1, 1, 5, 0, 4,
   129, 141, 234, 13, 49, 149, 89, 124, 237, 102, 190, 205, 97, 117, 178, 159, 95, 94, 51,
   133, 127, 77, 49, 216, 85, 33, 215, 21, 243, 231, 249, 107, 31, 6, 192, 74, 242, 159,
   159, 237, 98, 134, 71, 154, 163, 72, 57, 197, 32, 238, 236, 9, 58, 45, 23, 37, 205, 186,
   237, 112, 221, 43, 234, 124, 0, 16, 224, 33, 54, 124, 25, 141, 247, 41, 25, 188, 122,
   132, 100, 98, 236, 124, 1, 51, 184, 214, 231, 193, 16, 89, 160, 67, 9, 10, 220, 22, 54,
   233, 122, 61, 199, 91, 8, 111, 185, 57, 127, 7, 138, 6, 57, 113, 109, 191, 71, 158, 106,
   206, 217, 14, 171, 68, 118, 97, 204, 105, 12, 84, 73, 208, 134, 108, 195, 172, 122, 222,
   56, 3, 29, 69, 184, 213, 188]

/-- The envelope computed for `demoCert` with an intermediate certificate whose raw encoding is empty. -/
def demoEmptyIntermediateEnvelope : Octets :=
  [48, 130, 1, 90, 6, 9, 42, 134, 72, 134, 247, 13, 1, 7, 2, 160, 130, 1, 75, 48, 130, 1,
   71, 2, 1, 1, 49, 15, 48, 13, 6, 9, 96, 134, 72, 1, 101, 3, 4, 2, 1, 5, 0, 48, 11, 6, 9,
   42, 134, 72, 134, 247, 13, 1, 7, 1, 160, 5, 48, 3, 2, 1, 7, 49, 130, 1, 27, 48, 130, 1,
   23, 2, 1, 1, 48, 5, 48, 0, 2, 1, 7, 48, 13, 6, 9, 96, 134, 72, 1, 101, 3, 4, 2, 1, 5, 0,
   160, 93, 48, 24, 6, 9, 42, 134, 72, 134, 247, 13, 1, 9, 3, 49, 11, 6, 9, 42, 134, 72,
   134, 247, 13, 1, 7, 1, 48, 16, 6, 9, 42, 134, 72, 134, 247, 13, 1, 9, 5, 49, 3, 23, 1, 0,
   48, 47, 6, 9, 42, 134, 72, 134, 247, 13, 1, 9, 4, 49, 34, 4, 32, 217, 25, 89, 153, 217,
   25, 89, 153, 217, 25, 89, 153, 217, 25, 89, 153, 217, 25, 89, 153, 217, 25, 89, 153, 217,
   25, 89, 153, 217, 25, 89, 153, 48, 13, 6, 9, 42, 134, 72, 134, 247, 13, 1, 1, 1, 5, 0, 4,
   129, 141, 234, 13, 49, 149, 89, 124, 237, 102, 190, 205, 97, 117, 178, 159, 95, 94, 51,
   133, 127, 77, 49, 216, 85, 33, 215, 21, 243, 231, 249, 107, 31, 6, 192, 74, 242, 159,
   159, 237, 98, 134, 71, 154, 163, 72, 57, 197, 32, 238, 236, 9, 58, 45, 23, 37, 205, 186,
   237, 112, 221, 43, 234, 124, 0, 16, 224, 33, 54, 124, 25, 141, 247, 41, 25, 188, 122,
   132, 100, 98, 236, 124, 1, 51, 184, 214, 231, 193, 16, 89, 160, 67, 9, 10, 220, 22, 54,
   233, 122, 61, 199, 91, 8, 111, 185, 57, 127, 7, 138, 6, 57, 113, 109, 191, 71, 158, 106,
   206, 217, 14, 171, 68, 118, 97, 204, 105, 12, 84, 73, 208, 134, 108, 195, 172, 122, 222,
   56, 3, 29, 69, 184, 213, 188]

/-! ## Reading the stream and building `signedData` -/

theorem ioCopy_eq (h : Digest) (r : Reader) :
    ioCopy h r = ({ written := h.written ++ r.content }, r.failure) := by
  induction r generalizing h with
  | EOF => simp [ioCopy, Reader.content, Reader.failure]
  | data p next ih =>
    simp [ioCopy, Reader.content, Reader.failure, ih, Digest.Write, List.append_assoc]
  | err e => simp [ioCopy, Reader.content, Reader.failure]

theorem buildSignedData_spec (env : Env) (r : Reader) (cert : Certificate)
    (intermediate : Option Certificate) :
    buildSignedData env r cert intermediate =
      match r.failure with
      | some err => .ret none (some err)
      | none =>
        .next
          { Version := 1
            DigestAlgorithms := [{ Algorithm := env.oidSHA256, Parameters := { Tag := 5 } }]
            ContentInfo := { ContentType := env.oidPKCS7Data }
            Certificates :=
              { Class := 2, Tag := 0, IsCompound := true,
                Bytes := match intermediate with
                  | some i => cert.Raw ++ i.Raw
                  | none => cert.Raw }
            SignerInfos :=
              [{ Version := 1
                 SignedIdentifier :=
                   { Issuer := { FullBytes := cert.RawIssuer }
                     SerialNumber := cert.SerialNumber }
                 DigestAlgorithm := { Algorithm := env.oidSHA256, Parameters := { Tag := 5 } }
                 AuthenticatedAttributes :=
                   [ NewAttribute env.oidPKCS9ContentType (.oid env.oidPKCS7Data),
                     NewAttribute env.oidPKCS9SigningTime (.time env.now.UTC),
                     NewAttribute env.oidPKCS9MessageDigest (.octets (env.sha256 r.content)) ]
                 DigestEncryptionAlgorithm :=
                   { Algorithm := env.oidPKCS1RSAEncryption, Parameters := { Tag := 5 } }
                 EncryptedDigest := []
                 UnauthenticatedAttributes := 0 }] } := by
  simp only [buildSignedData, ioCopy_eq]
  cases hf : r.failure <;> simp [sha256New, Digest.Sum]

theorem signAttributes_next_iff (env : Env) (priv : PrivateKey) (sd sd' : SignedData) :
    signAttributes env priv sd = .next sd' ↔
      ∃ si others B sig, sd.SignerInfos = si :: others ∧
        env.Marshal (.attributes si.AuthenticatedAttributes) = .ok B ∧ B ≠ [] ∧
        env.SignPKCS1v15 priv CryptoHash.SHA256 (env.sha256 (B.set 0 0x31)) = .ok sig ∧
        sd' = { sd with SignerInfos := { si with EncryptedDigest := sig } :: others } := by
  unfold signAttributes
  constructor
  · intro h
    split at h
    · simp at h
    · rename_i si others hsi
      split at h
      · simp at h
      · rename_i B hB
        split at h
        · simp at h
        · rename_i b tail
          simp only [sha256New, Digest.Write, Digest.Sum, List.nil_append] at h
          split at h
          · simp at h
          · rename_i sig hsig
            refine ⟨si, others, b :: tail, sig, hsi, hB, by simp, by simpa using hsig, ?_⟩
            simpa using h.symm
  · rintro ⟨si, others, B, sig, hsi, hB, hne, hsig, rfl⟩
    cases B with
    | nil => exact absurd rfl hne
    | cons b tail =>
      simp only [List.set_cons_zero] at hsig
      simp [hsi, hB, sha256New, Digest.Write, Digest.Sum, hsig]

theorem buildSignedData_ret (env : Env) (r : Reader) (cert : Certificate)
    (intermediate : Option Certificate) (o : Option Octets) (e : Option Error)
    (h : buildSignedData env r cert intermediate = .ret o e) :
    o = none ∧ ∃ err, e = some err ∧ r.failure = some err := by
  rw [buildSignedData_spec] at h
  cases hf : r.failure with
  | none => simp [hf] at h
  | some err =>
    simp only [hf, Step.ret.injEq] at h
    exact ⟨h.1.symm, err, h.2.symm, rfl⟩

theorem buildSignedData_ne_panic (env : Env) (r : Reader) (cert : Certificate)
    (intermediate : Option Certificate) :
    buildSignedData env r cert intermediate ≠ .panic := by
  rw [buildSignedData_spec]
  cases hf : r.failure <;> simp

theorem signAttributes_ret (env : Env) (priv : PrivateKey) (sd : SignedData)
    (o : Option Octets) (e : Option Error) (h : signAttributes env priv sd = .ret o e) :
    o = none ∧ ∃ err, e = some err ∧
      ∃ si others, sd.SignerInfos = si :: others ∧
        (env.Marshal (.attributes si.AuthenticatedAttributes) = .error err ∨
          ∃ B, env.Marshal (.attributes si.AuthenticatedAttributes) = .ok B ∧ B ≠ [] ∧
            env.SignPKCS1v15 priv CryptoHash.SHA256 (env.sha256 (B.set 0 0x31)) = .error err) := by
  unfold signAttributes at h
  split at h
  · simp at h
  · rename_i si others hsi
    split at h
    · rename_i err herr
      simp only [Step.ret.injEq] at h
      exact ⟨h.1.symm, err, h.2.symm, si, others, hsi, Or.inl herr⟩
    · rename_i B hB
      split at h
      · simp at h
      · rename_i b tail
        simp only [sha256New, Digest.Write, Digest.Sum, List.nil_append] at h
        split at h
        · rename_i err herr
          simp only [Step.ret.injEq] at h
          exact ⟨h.1.symm, err, h.2.symm, si, others, hsi,
            Or.inr ⟨b :: tail, hB, by simp, by simpa using herr⟩⟩
        · simp at h

theorem signAttributes_panic (env : Env) (priv : PrivateKey) (sd : SignedData)
    (h : signAttributes env priv sd = .panic) :
    sd.SignerInfos = [] ∨
      ∃ si others, sd.SignerInfos = si :: others ∧
        env.Marshal (.attributes si.AuthenticatedAttributes) = .ok [] := by
  unfold signAttributes at h
  split at h
  · rename_i hsi
    exact Or.inl hsi
  · rename_i si others hsi
    split at h
    · simp at h
    · rename_i B hB
      split at h
      · exact Or.inr ⟨si, others, hsi, hB⟩
      · simp only [sha256New, Digest.Write, Digest.Sum, List.nil_append] at h
        split at h <;> simp at h

theorem marshalledSignedData_eq_some_iff (env : Env) (r : Reader) (cert : Certificate)
    (priv : PrivateKey) (intermediate : Option Certificate) (sd' : SignedData) :
    marshalledSignedData env r cert priv intermediate = some sd' ↔
      ∃ sd, buildSignedData env r cert intermediate = .next sd ∧
        signAttributes env priv sd = .next sd' := by
  unfold marshalledSignedData
  cases hb : buildSignedData env r cert intermediate with
  | next sd =>
    cases hs : signAttributes env priv sd with
    | next sd'' => simp [hs]
    | ret o e => simp [hs]
    | panic => simp [hs]
  | ret o e => simp
  | panic => simp

theorem Sign2_eq_marshalEnvelope (env : Env) (r : Reader) (cert : Certificate)
    (priv : PrivateKey) (intermediate : Option Certificate) (sd : SignedData)
    (h : marshalledSignedData env r cert priv intermediate = some sd) :
    Sign2 env r cert priv intermediate = marshalEnvelope env sd := by
  obtain ⟨sd₀, hb, hs⟩ := (marshalledSignedData_eq_some_iff _ _ _ _ _ _).mp h
  simp [Sign2, hb, hs]

theorem marshalEnvelope_ok_iff (env : Env) (sd : SignedData) (out : Octets) :
    marshalEnvelope env sd = .ret (some out) none ↔
      ∃ enc, env.Marshal (.signedData sd) = .ok enc ∧
        env.Marshal (.signedDataWrapper
          { Oid := env.oidPKCS7SignedData
            SignedData := { Class := 2, Tag := 0, Bytes := enc, IsCompound := true } })
          = .ok out := by
  unfold marshalEnvelope
  cases h1 : env.Marshal (.signedData sd) with
  | error e => simp
  | ok enc =>
    simp only [Except.ok.injEq, exists_eq_left']
    cases h2 : env.Marshal (.signedDataWrapper
          { Oid := env.oidPKCS7SignedData
            SignedData := { Class := 2, Tag := 0, Bytes := enc, IsCompound := true } }) with
    | error e => simp
    | ok b => simp

theorem Sign2_ok_iff (env : Env) (r : Reader) (cert : Certificate)
    (priv : PrivateKey) (intermediate : Option Certificate) (out : Octets) :
    Sign2 env r cert priv intermediate = .ret (some out) none ↔
      ∃ sd, marshalledSignedData env r cert priv intermediate = some sd ∧
        marshalEnvelope env sd = .ret (some out) none := by
  constructor
  · intro h
    cases hb : buildSignedData env r cert intermediate with
    | next sd₀ =>
      cases hs : signAttributes env priv sd₀ with
      | next sd =>
        simp only [Sign2, hb, hs] at h
        exact ⟨sd, (marshalledSignedData_eq_some_iff _ _ _ _ _ _).mpr ⟨sd₀, hb, hs⟩, h⟩
      | ret o e =>
        obtain ⟨ho, -⟩ := signAttributes_ret _ _ _ _ _ hs
        simp [Sign2, hb, hs, ho] at h
      | panic => simp [Sign2, hb, hs] at h
    | ret o e =>
      obtain ⟨ho, -⟩ := buildSignedData_ret _ _ _ _ _ _ hb
      simp [Sign2, hb, ho] at h
    | panic => simp [Sign2, hb] at h
  · rintro ⟨sd, hm, he⟩
    rw [Sign2_eq_marshalEnvelope _ _ _ _ _ _ hm, he]

theorem buildSignedData_next (env : Env) (r : Reader) (cert : Certificate)
    (intermediate : Option Certificate) (sd : SignedData) :
    buildSignedData env r cert intermediate = .next sd →
    r.failure = none ∧
      sd =
        { Version := 1
          DigestAlgorithms := [{ Algorithm := env.oidSHA256, Parameters := { Tag := 5 } }]
          ContentInfo := { ContentType := env.oidPKCS7Data }
          Certificates :=
            { Class := 2, Tag := 0, IsCompound := true,
              Bytes := match intermediate with
                | some i => cert.Raw ++ i.Raw
                | none => cert.Raw }
          SignerInfos :=
            [{ Version := 1
               SignedIdentifier :=
                 { Issuer := { FullBytes := cert.RawIssuer }
                   SerialNumber := cert.SerialNumber }
               DigestAlgorithm := { Algorithm := env.oidSHA256, Parameters := { Tag := 5 } }
               AuthenticatedAttributes :=
                 [ NewAttribute env.oidPKCS9ContentType (.oid env.oidPKCS7Data),
                   NewAttribute env.oidPKCS9SigningTime (.time env.now.UTC),
                   NewAttribute env.oidPKCS9MessageDigest (.octets (env.sha256 r.content)) ]
               DigestEncryptionAlgorithm :=
                 { Algorithm := env.oidPKCS1RSAEncryption, Parameters := { Tag := 5 } }
               EncryptedDigest := []
               UnauthenticatedAttributes := 0 }] } := by
  intro h
  rw [buildSignedData_spec] at h
  cases hf : r.failure with
  | some err => simp [hf] at h
  | none =>
    simp only [hf, Step.next.injEq] at h
    exact ⟨rfl, h.symm⟩

theorem buildSignedData_of_read (env : Env) (r : Reader) (cert : Certificate)
    (intermediate : Option Certificate) (hread : r.failure = none) :
    ∃ sd, buildSignedData env r cert intermediate = .next sd := by
  rw [buildSignedData_spec, hread]
  exact ⟨_, rfl⟩

theorem marshalledSignedData_spec (env : Env) (r : Reader) (cert : Certificate)
    (priv : PrivateKey) (intermediate : Option Certificate) (sd' : SignedData)
    (h : marshalledSignedData env r cert priv intermediate = some sd') :
    ∃ sd si B sig, buildSignedData env r cert intermediate = .next sd ∧
      sd.SignerInfos = [si] ∧
      env.Marshal (.attributes si.AuthenticatedAttributes) = .ok B ∧ B ≠ [] ∧
      env.SignPKCS1v15 priv CryptoHash.SHA256 (env.sha256 (B.set 0 0x31)) = .ok sig ∧
      sd' = { sd with SignerInfos := [{ si with EncryptedDigest := sig }] } := by
  obtain ⟨sd, hb, hs⟩ := (marshalledSignedData_eq_some_iff _ _ _ _ _ _).mp h
  obtain ⟨si, others, B, sig, hsi, hB, hne, hsig, rfl⟩ :=
    (signAttributes_next_iff _ _ _ _).mp hs
  obtain ⟨-, hsd⟩ := buildSignedData_next _ _ _ _ _ hb
  have hothers : others = [] := by
    rw [hsd] at hsi
    simp only [List.cons.injEq] at hsi
    exact hsi.2.symm
  subst hothers
  exact ⟨sd, si, B, sig, hb, hsi, hB, hne, hsig, rfl⟩

theorem demoSha256_length (m : Octets) : (demoSha256 m).length = 32 := by
  simp [demoSha256]

theorem demoTLV_ne_nil (tag : Nat) (body b : Octets) (h : demoTLV tag body = .ok b) :
    b ≠ [] := by
  unfold demoTLV at h
  split_ifs at h <;> simp at h <;> subst h <;> simp

theorem demoMarshal_ne_nil (v : Value) (b : Octets) (h : demoMarshal v = .ok b) : b ≠ [] := by
  unfold demoMarshal at h
  split at h
  · simp at h
  · exact demoTLV_ne_nil _ _ _ h

theorem Sign2_of_read_failure (env : Env) (r : Reader) (cert : Certificate)
    (priv : PrivateKey) (intermediate : Option Certificate) (e : Error)
    (hf : r.failure = some e) :
    Sign2 env r cert priv intermediate = .ret none (some e) := by
  simp [Sign2, buildSignedData_spec, hf]

theorem Sign2_of_build (env : Env) (r : Reader) (cert : Certificate)
    (priv : PrivateKey) (intermediate : Option Certificate) (sd : SignedData)
    (hb : buildSignedData env r cert intermediate = .next sd) :
    Sign2 env r cert priv intermediate =
      match signAttributes env priv sd with
      | .ret out err => .ret out err
      | .panic => .panic
      | .next sd' => marshalEnvelope env sd' := by
  simp [Sign2, hb]

theorem signAttributes_of_marshal_error (env : Env) (priv : PrivateKey) (sd : SignedData)
    (si : SignerInfo) (others : List SignerInfo) (e : Error)
    (hsi : sd.SignerInfos = si :: others)
    (hB : env.Marshal (.attributes si.AuthenticatedAttributes) = .error e) :
    signAttributes env priv sd = .ret none (some e) := by
  simp [signAttributes, hsi, hB]

theorem signAttributes_of_sign_error (env : Env) (priv : PrivateKey) (sd : SignedData)
    (si : SignerInfo) (others : List SignerInfo) (B : Octets) (e : Error)
    (hsi : sd.SignerInfos = si :: others)
    (hB : env.Marshal (.attributes si.AuthenticatedAttributes) = .ok B) (hne : B ≠ [])
    (hsig : env.SignPKCS1v15 priv CryptoHash.SHA256 (env.sha256 (B.set 0 0x31)) = .error e) :
    signAttributes env priv sd = .ret none (some e) := by
  cases B with
  | nil => exact absurd rfl hne
  | cons b tail =>
    simp only [List.set_cons_zero] at hsig
    simp [signAttributes, hsi, hB, sha256New, Digest.Write, Digest.Sum, hsig]

theorem marshalEnvelope_cases (env : Env) (sd : SignedData) :
    (∃ e, marshalEnvelope env sd = .ret none (some e) ∧
      (env.Marshal (.signedData sd) = .error e ∨
        ∃ enc, env.Marshal (.signedData sd) = .ok enc ∧
          env.Marshal (.signedDataWrapper
            { Oid := env.oidPKCS7SignedData
              SignedData := { Class := 2, Tag := 0, Bytes := enc, IsCompound := true } })
            = .error e)) ∨
    (∃ out, marshalEnvelope env sd = .ret (some out) none) := by
  unfold marshalEnvelope
  cases h1 : env.Marshal (.signedData sd) with
  | error e => exact Or.inl ⟨e, rfl, Or.inl rfl⟩
  | ok enc =>
    cases h2 : env.Marshal (.signedDataWrapper
            { Oid := env.oidPKCS7SignedData
              SignedData := { Class := 2, Tag := 0, Bytes := enc, IsCompound := true } }) with
    | error e =>
      refine Or.inl ⟨e, ?_, Or.inr ⟨enc, rfl, h2⟩⟩
      simp [h2]
    | ok out =>
      refine Or.inr ⟨out, ?_⟩
      simp [h2]

theorem Sign2_ok_of_build (env : Env) (r : Reader) (cert : Certificate)
    (priv : PrivateKey) (intermediate : Option Certificate) (sd : SignedData) (out : Octets)
    (hb : buildSignedData env r cert intermediate = .next sd)
    (h : Sign2 env r cert priv intermediate = .ret (some out) none) :
    ∃ si sig enc, sd.SignerInfos = [si] ∧
      marshalledSignedData env r cert priv intermediate
        = some { sd with SignerInfos := [{ si with EncryptedDigest := sig }] } ∧
      env.Marshal (.signedData { sd with SignerInfos := [{ si with EncryptedDigest := sig }] })
        = .ok enc ∧
      env.Marshal (.signedDataWrapper
        { Oid := env.oidPKCS7SignedData
          SignedData := { Class := 2, Tag := 0, Bytes := enc, IsCompound := true } })
        = .ok out := by
  obtain ⟨sd', hm, he⟩ := (Sign2_ok_iff _ _ _ _ _ _).mp h
  obtain ⟨enc, henc, hout⟩ := (marshalEnvelope_ok_iff _ _ _).mp he
  obtain ⟨sd₁, si, B, sig, hb₁, hsi, -, -, -, rfl⟩ := marshalledSignedData_spec _ _ _ _ _ _ hm
  rw [hb] at hb₁
  cases hb₁
  exact ⟨si, sig, enc, hsi, hm, henc, hout⟩

/-! ## The claims -/

/-- C1: when the stream read succeeds, the third authenticated attribute of the single
SignerInfo that `Sign2` builds is `NewAttribute(oidPKCS9MessageDigest, d)` where `d` is the
SHA-256 digest of all the bytes the stream delivered (32 bytes, and the digest of zero bytes for
an empty stream). The run of `Sign2` goes on from this very structure, `Sign` is `Sign2` without
an intermediate certificate, the attribute list reaches the marshalling of SignedData unchanged,
and the bytes `Sign2` returns are the wrapped marshalling of a SignedData holding it. -/
theorem Sign2_message_digest_attribute (env : Env) (r : Reader) (cert : Certificate)
    (intermediate : Option Certificate) (hread : r.failure = none)
    (h32 : ∀ m, (env.sha256 m).length = 32) :
    ∃ sd si a₁ a₂ a₃ d,
      buildSignedData env r cert intermediate = .next sd ∧
      sd.SignerInfos = [si] ∧
      si.AuthenticatedAttributes = [a₁, a₂, a₃] ∧
      a₃ = NewAttribute env.oidPKCS9MessageDigest (.octets d) ∧
      a₃.Typ = env.oidPKCS9MessageDigest ∧
      a₃.Value = .octets d ∧
      d = env.sha256 r.content ∧
      d.length = 32 ∧
      (r.content = [] → d = env.sha256 []) ∧
      (∀ priv sd', marshalledSignedData env r cert priv intermediate = some sd' →
        ∃ si', sd'.SignerInfos = [si'] ∧ si'.AuthenticatedAttributes = [a₁, a₂, a₃]) ∧
      (∀ priv, Sign2 env r cert priv intermediate =
        match signAttributes env priv sd with
        | .ret out err => .ret out err
        | .panic => .panic
        | .next sd' => marshalEnvelope env sd') ∧
      (∀ priv, Sign env r cert priv = Sign2 env r cert priv none) ∧
      (∀ priv sd', marshalledSignedData env r cert priv intermediate = some sd' →
        Sign2 env r cert priv intermediate = marshalEnvelope env sd') ∧
      (∀ priv out, Sign2 env r cert priv intermediate = .ret (some out) none →
        ∃ sd' si' enc, sd'.SignerInfos = [si'] ∧
          si'.AuthenticatedAttributes = [a₁, a₂, a₃] ∧
          env.Marshal (.signedData sd') = .ok enc ∧
          env.Marshal (.signedDataWrapper
            { Oid := env.oidPKCS7SignedData
              SignedData := { Class := 2, Tag := 0, Bytes := enc, IsCompound := true } })
            = .ok out) := by
  obtain ⟨sd, hb⟩ := buildSignedData_of_read env r cert intermediate hread
  obtain ⟨-, hsd⟩ := buildSignedData_next _ _ _ _ _ hb
  have hmarsh : ∀ priv sd', marshalledSignedData env r cert priv intermediate = some sd' →
      ∃ si', sd'.SignerInfos = [si'] ∧ si'.AuthenticatedAttributes =
        [ NewAttribute env.oidPKCS9ContentType (.oid env.oidPKCS7Data),
          NewAttribute env.oidPKCS9SigningTime (.time env.now.UTC),
          NewAttribute env.oidPKCS9MessageDigest (.octets (env.sha256 r.content)) ] := by
    intro priv sd' hm
    obtain ⟨sd₁, si, B, sig, hb₁, hsi, -, -, -, rfl⟩ := marshalledSignedData_spec _ _ _ _ _ _ hm
    rw [hb] at hb₁
    cases hb₁
    rw [hsd] at hsi
    simp only [List.cons.injEq, and_true] at hsi
    subst hsi
    exact ⟨_, rfl, rfl⟩
  refine ⟨sd, _, _, _, _, env.sha256 r.content, hb, by rw [hsd], rfl, rfl, rfl, rfl, rfl,
    h32 _, fun h => by rw [h], hmarsh, fun priv => Sign2_of_build _ _ _ _ _ _ hb,
    fun _ => rfl, fun priv sd' hm => Sign2_eq_marshalEnvelope _ _ _ _ _ _ hm, ?_⟩
  intro priv out hout
  obtain ⟨si, sig, enc, -, hm, henc, hw⟩ := Sign2_ok_of_build _ _ _ _ _ _ _ hb hout
  obtain ⟨si', hsi', hattrs⟩ := hmarsh priv _ hm
  exact ⟨_, si', enc, hsi', hattrs, henc, hw⟩

/-- C1, at a concrete input: the two chunks "hi" and "!" are digested as one message, and the
run of `Sign2` marshals a SignedData whose third attribute holds that digest. -/
theorem Sign2_message_digest_attribute_witness :
    demoReader.failure = none ∧ demoReader.content = [104, 105, 33] ∧
      ∃ sd' si' a₁ a₂,
        marshalledSignedData demoEnv demoReader demoCert demoKey none = some sd' ∧
        Sign2 demoEnv demoReader demoCert demoKey none = marshalEnvelope demoEnv sd' ∧
        Sign demoEnv demoReader demoCert demoKey = marshalEnvelope demoEnv sd' ∧
        sd'.SignerInfos = [si'] ∧
        si'.AuthenticatedAttributes =
          [a₁, a₂, NewAttribute [1, 2, 840, 113549, 1, 9, 4]
            (.octets (demoSha256 [104, 105, 33]))] ∧
        (demoSha256 [104, 105, 33]).length = 32 := by
  have hsome : (marshalledSignedData demoEnv demoReader demoCert demoKey none).isSome = true := by
    decide
  obtain ⟨sd', hsd'⟩ := Option.isSome_iff_exists.mp hsome
  obtain ⟨sd, si, a₁, a₂, a₃, d, -, -, -, ha₃, -, -, hd, hlen, -, hmarsh, -, hSign, hrun, -⟩ :=
    Sign2_message_digest_attribute demoEnv demoReader demoCert none rfl demoSha256_length
  obtain ⟨si', hsi', hattrs⟩ := hmarsh demoKey sd' hsd'
  subst hd
  subst ha₃
  exact ⟨rfl, rfl, sd', si', a₁, a₂, hsd', hrun demoKey sd' hsd',
    (hSign demoKey).trans (hrun demoKey sd' hsd'), hsi', hattrs, hlen⟩

/-- C4: the certificate bundle in `SignedData.Certificates` is a context-class, tag 0,
constructed raw value whose bytes are `Cert.Raw` followed by `Intermediate.Raw` (length the sum
of both lengths) when an intermediate certificate is given, and exactly `Cert.Raw` when none is
given; `Sign` is `Sign2` without an intermediate certificate. The run of `Sign2` goes on from
this very structure, the bundle reaches the marshalling of SignedData unchanged, and the bytes
`Sign2` returns are the wrapped marshalling of a SignedData holding it. -/
theorem Sign2_certificate_bundle (env : Env) (r : Reader) (cert : Certificate)
    (intermediate : Option Certificate) (hread : r.failure = none) :
    ∃ sd, buildSignedData env r cert intermediate = .next sd ∧
      sd.Certificates.Class = 2 ∧ sd.Certificates.Tag = 0 ∧
      sd.Certificates.IsCompound = true ∧ sd.Certificates.FullBytes = [] ∧
      (∀ i, intermediate = some i →
        sd.Certificates.Bytes = cert.Raw ++ i.Raw ∧
        sd.Certificates.Bytes.length = cert.Raw.length + i.Raw.length) ∧
      (intermediate = none →
        sd.Certificates.Bytes = cert.Raw ∧
        sd.Certificates.Bytes.length = cert.Raw.length) ∧
      (∀ priv sd', marshalledSignedData env r cert priv intermediate = some sd' →
        sd'.Certificates = sd.Certificates) ∧
      (∀ priv, Sign env r cert priv = Sign2 env r cert priv none) ∧
      (∀ priv, Sign2 env r cert priv intermediate =
        match signAttributes env priv sd with
        | .ret out err => .ret out err
        | .panic => .panic
        | .next sd' => marshalEnvelope env sd') ∧
      (∀ priv sd', marshalledSignedData env r cert priv intermediate = some sd' →
        Sign2 env r cert priv intermediate = marshalEnvelope env sd') ∧
      (∀ priv out, Sign2 env r cert priv intermediate = .ret (some out) none →
        ∃ sd' enc, sd'.Certificates = sd.Certificates ∧
          env.Marshal (.signedData sd') = .ok enc ∧
          env.Marshal (.signedDataWrapper
            { Oid := env.oidPKCS7SignedData
              SignedData := { Class := 2, Tag := 0, Bytes := enc, IsCompound := true } })
            = .ok out) := by
  obtain ⟨sd, hb⟩ := buildSignedData_of_read env r cert intermediate hread
  obtain ⟨-, hsd⟩ := buildSignedData_next _ _ _ _ _ hb
  refine ⟨sd, hb, by rw [hsd], by rw [hsd], by rw [hsd], by rw [hsd], ?_, ?_, ?_,
    fun _ => rfl, fun priv => Sign2_of_build _ _ _ _ _ _ hb,
    fun priv sd' hm => Sign2_eq_marshalEnvelope _ _ _ _ _ _ hm, ?_⟩
  · rintro i rfl
    rw [hsd]
    simp
  · rintro rfl
    rw [hsd]
    simp
  · intro priv sd' hm
    obtain ⟨sd₁, si, B, sig, hb₁, -, -, -, -, rfl⟩ := marshalledSignedData_spec _ _ _ _ _ _ hm
    rw [hb] at hb₁
    cases hb₁
    rfl
  · intro priv out hout
    obtain ⟨si, sig, enc, -, -, henc, hw⟩ := Sign2_ok_of_build _ _ _ _ _ _ _ hb hout
    exact ⟨{ sd with SignerInfos := [{ si with EncryptedDigest := sig }] }, enc, rfl, henc, hw⟩

/-- C4, at a concrete input: a five-byte signer certificate and a five-byte intermediate
certificate give a ten-byte bundle in the SignedData that the run of `Sign2` marshals; without
the intermediate certificate the bundle of `Sign` is the five bytes of the certificate. -/
theorem Sign2_certificate_bundle_witness :
    demoReader.failure = none ∧
      (∃ sd', marshalledSignedData demoEnv demoReader demoCert demoKey (some demoIntermediate)
          = some sd' ∧
        Sign2 demoEnv demoReader demoCert demoKey (some demoIntermediate)
          = marshalEnvelope demoEnv sd' ∧
        sd'.Certificates.Bytes = [0x30, 0x03, 0x02, 0x01, 0x07, 0x30, 0x03, 0x02, 0x01, 0x09] ∧
        sd'.Certificates.Bytes.length = 5 + 5) ∧
      (∃ sd', marshalledSignedData demoEnv demoReader demoCert demoKey none = some sd' ∧
        Sign demoEnv demoReader demoCert demoKey = marshalEnvelope demoEnv sd' ∧
        sd'.Certificates.Bytes = [0x30, 0x03, 0x02, 0x01, 0x07]) := by
  have hsome₁ : (marshalledSignedData demoEnv demoReader demoCert demoKey
      (some demoIntermediate)).isSome = true := by
    decide
  have hsome₂ : (marshalledSignedData demoEnv demoReader demoCert demoKey none).isSome = true := by
    decide
  obtain ⟨sd₁, hsd₁⟩ := Option.isSome_iff_exists.mp hsome₁
  obtain ⟨sd₂, hsd₂⟩ := Option.isSome_iff_exists.mp hsome₂
  obtain ⟨sd, -, -, -, -, -, hwith, -, hkeep, -, -, hrun, -⟩ :=
    Sign2_certificate_bundle demoEnv demoReader demoCert (some demoIntermediate) rfl
  obtain ⟨sd₀, -, -, -, -, -, -, hwithout, hkeep₀, hSign, -, hrun₀, -⟩ :=
    Sign2_certificate_bundle demoEnv demoReader demoCert none rfl
  refine ⟨rfl, ⟨sd₁, hsd₁, hrun demoKey sd₁ hsd₁, ?_, ?_⟩,
    ⟨sd₂, hsd₂, (hSign demoKey).trans (hrun₀ demoKey sd₂ hsd₂), ?_⟩⟩
  · rw [hkeep demoKey sd₁ hsd₁]
    exact (hwith demoIntermediate rfl).1
  · rw [hkeep demoKey sd₁ hsd₁]
    exact (hwith demoIntermediate rfl).2
  · rw [hkeep₀ demoKey sd₂ hsd₂]
    exact (hwithout rfl).1

/-- C5: the signer identifier of the single SignerInfo carries the certificate's raw issuer
bytes as the full, pre-encoded bytes of the Issuer field (no other field of the raw value is
set) and the certificate's serial number as it is. The run of `Sign2` goes on from this very
structure, the identifier reaches the marshalling of SignedData unchanged, and the bytes
`Sign2` returns are the wrapped marshalling of a SignedData holding it. -/
theorem Sign2_issuer_and_serial_number (env : Env) (r : Reader) (cert : Certificate)
    (intermediate : Option Certificate) (hread : r.failure = none) :
    ∃ sd si, buildSignedData env r cert intermediate = .next sd ∧
      sd.SignerInfos = [si] ∧
      si.SignedIdentifier.Issuer = { FullBytes := cert.RawIssuer } ∧
      si.SignedIdentifier.Issuer.FullBytes = cert.RawIssuer ∧
      si.SignedIdentifier.SerialNumber = cert.SerialNumber ∧
      (∀ priv sd', marshalledSignedData env r cert priv intermediate = some sd' →
        ∃ si', sd'.SignerInfos = [si'] ∧ si'.SignedIdentifier = si.SignedIdentifier) ∧
      (∀ priv, Sign2 env r cert priv intermediate =
        match signAttributes env priv sd with
        | .ret out err => .ret out err
        | .panic => .panic
        | .next sd' => marshalEnvelope env sd') ∧
      (∀ priv, Sign env r cert priv = Sign2 env r cert priv none) ∧
      (∀ priv sd', marshalledSignedData env r cert priv intermediate = some sd' →
        Sign2 env r cert priv intermediate = marshalEnvelope env sd') ∧
      (∀ priv out, Sign2 env r cert priv intermediate = .ret (some out) none →
        ∃ sd' si' enc, sd'.SignerInfos = [si'] ∧
          si'.SignedIdentifier = si.SignedIdentifier ∧
          env.Marshal (.signedData sd') = .ok enc ∧
          env.Marshal (.signedDataWrapper
            { Oid := env.oidPKCS7SignedData
              SignedData := { Class := 2, Tag := 0, Bytes := enc, IsCompound := true } })
            = .ok out) := by
  obtain ⟨sd, hb⟩ := buildSignedData_of_read env r cert intermediate hread
  obtain ⟨-, hsd⟩ := buildSignedData_next _ _ _ _ _ hb
  have hmarsh : ∀ priv sd', marshalledSignedData env r cert priv intermediate = some sd' →
      ∃ si', sd'.SignerInfos = [si'] ∧ si'.SignedIdentifier =
        { Issuer := { FullBytes := cert.RawIssuer }, SerialNumber := cert.SerialNumber } := by
    intro priv sd' hm
    obtain ⟨sd₁, si, B, sig, hb₁, hsi, -, -, -, rfl⟩ := marshalledSignedData_spec _ _ _ _ _ _ hm
    rw [hb] at hb₁
    cases hb₁
    rw [hsd] at hsi
    simp only [List.cons.injEq, and_true] at hsi
    subst hsi
    exact ⟨_, rfl, rfl⟩
  refine ⟨sd, _, hb, by rw [hsd], rfl, rfl, rfl, hmarsh,
    fun priv => Sign2_of_build _ _ _ _ _ _ hb, fun _ => rfl,
    fun priv sd' hm => Sign2_eq_marshalEnvelope _ _ _ _ _ _ hm, ?_⟩
  intro priv out hout
  obtain ⟨si, sig, enc, -, hm, henc, hw⟩ := Sign2_ok_of_build _ _ _ _ _ _ _ hb hout
  obtain ⟨si', hsi', hid⟩ := hmarsh priv _ hm
  exact ⟨_, si', enc, hsi', hid, henc, hw⟩

/-- C5, at a concrete input: the SignerInfo in the SignedData that the run of `Sign2` marshals
carries the issuer bytes `30 00` and the serial number 7. -/
theorem Sign2_issuer_and_serial_number_witness :
    demoReader.failure = none ∧
      ∃ sd' si', marshalledSignedData demoEnv demoReader demoCert demoKey none = some sd' ∧
        Sign2 demoEnv demoReader demoCert demoKey none = marshalEnvelope demoEnv sd' ∧
        sd'.SignerInfos = [si'] ∧
        si'.SignedIdentifier.Issuer.FullBytes = [0x30, 0x00] ∧
        si'.SignedIdentifier.SerialNumber = 7 := by
  have hsome : (marshalledSignedData demoEnv demoReader demoCert demoKey none).isSome = true := by
    decide
  obtain ⟨sd', hsd'⟩ := Option.isSome_iff_exists.mp hsome
  obtain ⟨sd, si, -, -, -, hissuer, hserial, hmarsh, -, -, hrun, -⟩ :=
    Sign2_issuer_and_serial_number demoEnv demoReader demoCert none rfl
  obtain ⟨si', hsi', hid⟩ := hmarsh demoKey sd' hsd'
  exact ⟨rfl, sd', si', hsd', hrun demoKey sd' hsd', hsi', by rw [hid]; exact hissuer,
    by rw [hid]; exact hserial⟩

/-- C6: the SignedData value that `Sign2` marshals holds exactly one SignerInfo, of version 1
and with no unauthenticated attributes, whose authenticated attributes are exactly three, in
the order content-type (value: the PKCS#7 data identifier), signing-time (a time in UTC),
message-digest; when the three attribute identifiers are distinct, each occurs exactly once. -/
theorem Sign2_single_signer_three_attributes (env : Env) (r : Reader) (cert : Certificate)
    (priv : PrivateKey) (intermediate : Option Certificate) (sd : SignedData)
    (h : marshalledSignedData env r cert priv intermediate = some sd) :
    Sign2 env r cert priv intermediate = marshalEnvelope env sd ∧
    ∃ si t d, sd.SignerInfos = [si] ∧
      si.Version = 1 ∧
      si.UnauthenticatedAttributes = 0 ∧
      si.AuthenticatedAttributes =
        [ NewAttribute env.oidPKCS9ContentType (.oid env.oidPKCS7Data),
          NewAttribute env.oidPKCS9SigningTime (.time t),
          NewAttribute env.oidPKCS9MessageDigest (.octets d) ] ∧
      si.AuthenticatedAttributes.length = 3 ∧
      si.AuthenticatedAttributes.map Attribute.Typ =
        [env.oidPKCS9ContentType, env.oidPKCS9SigningTime, env.oidPKCS9MessageDigest] ∧
      t = env.now.UTC ∧ t.offset = 0 ∧
      d = env.sha256 r.content ∧
      (env.oidPKCS9ContentType ≠ env.oidPKCS9SigningTime →
        env.oidPKCS9ContentType ≠ env.oidPKCS9MessageDigest →
        env.oidPKCS9SigningTime ≠ env.oidPKCS9MessageDigest →
        ∀ o ∈ [env.oidPKCS9ContentType, env.oidPKCS9SigningTime, env.oidPKCS9MessageDigest],
          (si.AuthenticatedAttributes.map Attribute.Typ).count o = 1) := by
  refine ⟨Sign2_eq_marshalEnvelope _ _ _ _ _ _ h, ?_⟩
  obtain ⟨sd₁, si, B, sig, hb, hsi, -, -, -, rfl⟩ := marshalledSignedData_spec _ _ _ _ _ _ h
  obtain ⟨-, hsd⟩ := buildSignedData_next _ _ _ _ _ hb
  rw [hsd] at hsi
  simp only [List.cons.injEq, and_true] at hsi
  subst hsi
  refine ⟨_, env.now.UTC, env.sha256 r.content, rfl, rfl, rfl, rfl, rfl, rfl, rfl, rfl, rfl, ?_⟩
  intro h12 h13 h23 o ho
  simp only [List.mem_cons, List.mem_singleton, List.not_mem_nil, or_false] at ho
  rcases ho with rfl | rfl | rfl
  · simp [NewAttribute, List.count_cons, h12.symm, h13.symm]
  · simp [NewAttribute, List.count_cons, h12, h23.symm]
  · simp [NewAttribute, List.count_cons, h13, h23]

/-- C6, at a concrete input: the run reaches the marshalling of SignedData, with one SignerInfo
and three attributes, the message-digest identifier occurring once. -/
theorem Sign2_single_signer_three_attributes_witness :
    ∃ sd, marshalledSignedData demoEnv demoReader demoCert demoKey none = some sd ∧
      Sign2 demoEnv demoReader demoCert demoKey none = marshalEnvelope demoEnv sd ∧
      ∃ si, sd.SignerInfos = [si] ∧ si.Version = 1 ∧ si.UnauthenticatedAttributes = 0 ∧
        si.AuthenticatedAttributes.length = 3 ∧
        (si.AuthenticatedAttributes.map Attribute.Typ).count [1, 2, 840, 113549, 1, 9, 4] = 1 := by
  have hsome : (marshalledSignedData demoEnv demoReader demoCert demoKey none).isSome = true := by
    decide
  obtain ⟨sd, hsd⟩ := Option.isSome_iff_exists.mp hsome
  obtain ⟨hrun, si, t, d, hsi, hv, hu, -, hlen, -, -, -, -, hcount⟩ :=
    Sign2_single_signer_three_attributes demoEnv demoReader demoCert demoKey none sd hsd
  exact ⟨sd, hsd, hrun, si, hsi, hv, hu, hlen,
    hcount (by decide) (by decide) (by decide) _ (by simp [demoEnv])⟩

/-- C9: the SignedData value that `Sign2` marshals declares exactly one digest algorithm, the
SHA-256 identifier with NULL parameters (a raw value of tag 5), and the digest algorithm of its
single SignerInfo is that same algorithm identifier. -/
theorem Sign2_digest_algorithms_agree (env : Env) (r : Reader) (cert : Certificate)
    (priv : PrivateKey) (intermediate : Option Certificate) (sd : SignedData)
    (h : marshalledSignedData env r cert priv intermediate = some sd) :
    Sign2 env r cert priv intermediate = marshalEnvelope env sd ∧
    ∃ alg si, sd.DigestAlgorithms = [alg] ∧ sd.SignerInfos = [si] ∧
      alg = { Algorithm := env.oidSHA256, Parameters := { Tag := 5 } } ∧
      alg.Algorithm = env.oidSHA256 ∧
      alg.Parameters = { Class := 0, Tag := 5, IsCompound := false, Bytes := [], FullBytes := [] } ∧
      si.DigestAlgorithm = alg := by
  refine ⟨Sign2_eq_marshalEnvelope _ _ _ _ _ _ h, ?_⟩
  obtain ⟨sd₁, si, B, sig, hb, hsi, -, -, -, rfl⟩ := marshalledSignedData_spec _ _ _ _ _ _ h
  obtain ⟨-, hsd⟩ := buildSignedData_next _ _ _ _ _ hb
  rw [hsd] at hsi
  simp only [List.cons.injEq, and_true] at hsi
  subst hsi
  exact ⟨_, _, by rw [hsd], rfl, rfl, rfl, rfl, rfl⟩

/-- C9, at a concrete input: the one declared algorithm is 2.16.840.1.101.3.4.2.1 and the
SignerInfo refers to the same one. -/
theorem Sign2_digest_algorithms_agree_witness :
    ∃ sd, marshalledSignedData demoEnv demoReader demoCert demoKey none = some sd ∧
      ∃ alg si, sd.DigestAlgorithms = [alg] ∧ sd.SignerInfos = [si] ∧
        alg.Algorithm = [2, 16, 840, 1, 101, 3, 4, 2, 1] ∧ si.DigestAlgorithm = alg := by
  have hsome : (marshalledSignedData demoEnv demoReader demoCert demoKey none).isSome = true := by
    decide
  obtain ⟨sd, hsd⟩ := Option.isSome_iff_exists.mp hsome
  obtain ⟨-, alg, si, hd, hsi, -, halg, -, hsame⟩ :=
    Sign2_digest_algorithms_agree demoEnv demoReader demoCert demoKey none sd hsd
  exact ⟨sd, hsd, alg, si, hd, hsi, halg, hsame⟩

/-- C2: in a successful run of `Sign2`, with `B` the marshalling of the three authenticated
attributes and `B'` equal to `B` except for its first byte, which is `0x31`, the signing
primitive is applied to the private key, the SHA-256 designator and the digest `SHA-256(B')`;
its result is the `EncryptedDigest` of the SignerInfo that is marshalled; the run consults the
primitive at no other argument. -/
theorem Sign2_signs_attribute_digest (env : Env) (r : Reader) (cert : Certificate)
    (priv : PrivateKey) (intermediate : Option Certificate) (out : Octets)
    (h : Sign2 env r cert priv intermediate = .ret (some out) none) :
    ∃ sd si B B' sig sd',
      buildSignedData env r cert intermediate = .next sd ∧
      sd.SignerInfos = [si] ∧
      si.AuthenticatedAttributes.length = 3 ∧
      env.Marshal (.attributes si.AuthenticatedAttributes) = .ok B ∧
      B ≠ [] ∧
      B' = B.set 0 0x31 ∧
      B'.length = B.length ∧ B'[0]? = some 0x31 ∧ (∀ i, 0 < i → B'[i]? = B[i]?) ∧
      env.SignPKCS1v15 priv CryptoHash.SHA256 (env.sha256 B') = .ok sig ∧
      marshalledSignedData env r cert priv intermediate = some sd' ∧
      sd'.SignerInfos = [{ si with EncryptedDigest := sig }] ∧
      (∀ sgn : PrivateKey → CryptoHash → Octets → Except Error Octets,
        sgn priv CryptoHash.SHA256 (env.sha256 B') = .ok sig →
        Sign2 { env with SignPKCS1v15 := sgn } r cert priv intermediate
          = .ret (some out) none) := by
  obtain ⟨sd', hm, he⟩ := (Sign2_ok_iff _ _ _ _ _ _).mp h
  obtain ⟨sd, si, B, sig, hb, hsi, hB, hne, hsig, rfl⟩ := marshalledSignedData_spec _ _ _ _ _ _ hm
  obtain ⟨hread, hsd⟩ := buildSignedData_next _ _ _ _ _ hb
  have hlen : si.AuthenticatedAttributes.length = 3 := by
    rw [hsd] at hsi
    simp only [List.cons.injEq, and_true] at hsi
    subst hsi
    rfl
  refine ⟨sd, si, B, B.set 0 0x31, sig, _, hb, hsi, hlen, hB, hne, rfl, by simp, ?_, ?_, hsig,
    hm, rfl, ?_⟩
  · cases B with
    | nil => exact absurd rfl hne
    | cons b tail => simp
  · intro i hi
    cases B with
    | nil => exact absurd rfl hne
    | cons b tail =>
      cases i with
      | zero => exact absurd hi (lt_irrefl 0)
      | succ j => simp
  · intro sgn hsgn
    rw [Sign2_ok_iff]
    refine ⟨{ sd with SignerInfos := [{ si with EncryptedDigest := sig }] }, ?_, ?_⟩
    · rw [marshalledSignedData_eq_some_iff]
      refine ⟨sd, ?_, ?_⟩
      · rw [buildSignedData_spec, hread, hsd]
      · rw [signAttributes_next_iff]
        exact ⟨si, [], B, sig, hsi, hB, hne, hsgn, rfl⟩
    · rw [marshalEnvelope_ok_iff] at he ⊢
      exact he

/-- C2, at a concrete input: the run succeeds, and the signature of the digest of the set-tagged
attribute encoding is the encrypted digest of the marshalled SignerInfo. -/
theorem Sign2_signs_attribute_digest_witness :
    Sign2 demoEnv demoReader demoCert demoKey none = .ret (some demoEnvelope) none ∧
      ∃ (B sig : Octets) (sd' : SignedData), B ≠ [] ∧ (B.set 0 0x31)[0]? = some 0x31 ∧
        demoSign demoKey CryptoHash.SHA256 (demoSha256 (B.set 0 0x31)) = .ok sig ∧
        marshalledSignedData demoEnv demoReader demoCert demoKey none = some sd' ∧
        sd'.SignerInfos.map SignerInfo.EncryptedDigest = [sig] := by
  have hrun : Sign2 demoEnv demoReader demoCert demoKey none = .ret (some demoEnvelope) none := by
    decide!
  refine ⟨hrun, ?_⟩
  obtain ⟨sd, si, B, B', sig, sd', -, -, -, -, hne, rfl, -, h0, -, hsig, hm, hsi', -⟩ :=
    Sign2_signs_attribute_digest demoEnv demoReader demoCert demoKey none demoEnvelope hrun
  exact ⟨B, sig, sd', hne, h0, hsig, hm, by rw [hsi']; rfl⟩

/-- C7: `Sign2` returns bytes `out` without an error exactly when the SignedData value it
marshals (version 1, a content info holding only the PKCS#7 data content type, the encrypted
digest filled in with the result of the signing primitive) is marshalled to some `enc`, and
`out` is the marshalling of the wrapper whose identifier is the PKCS#7 SignedData identifier
and whose content is the context-class, tag 0, constructed raw value with bytes `enc`. -/
theorem Sign2_returns_wrapped_signedData (env : Env) (r : Reader) (cert : Certificate)
    (priv : PrivateKey) (intermediate : Option Certificate) (out : Octets) :
    Sign2 env r cert priv intermediate = .ret (some out) none ↔
      ∃ sd si enc, marshalledSignedData env r cert priv intermediate = some sd ∧
        sd.Version = 1 ∧
        sd.ContentInfo = { ContentType := env.oidPKCS7Data } ∧
        sd.SignerInfos = [si] ∧
        (∃ B, env.Marshal (.attributes si.AuthenticatedAttributes) = .ok B ∧
          env.SignPKCS1v15 priv CryptoHash.SHA256 (env.sha256 (B.set 0 0x31))
            = .ok si.EncryptedDigest) ∧
        env.Marshal (.signedData sd) = .ok enc ∧
        env.Marshal (.signedDataWrapper
          { Oid := env.oidPKCS7SignedData
            SignedData := { Class := 2, Tag := 0, Bytes := enc, IsCompound := true } })
          = .ok out := by
  constructor
  · intro h
    obtain ⟨sd', hm, he⟩ := (Sign2_ok_iff _ _ _ _ _ _).mp h
    obtain ⟨enc, henc, hout⟩ := (marshalEnvelope_ok_iff _ _ _).mp he
    obtain ⟨sd, si, B, sig, hb, hsi, hB, -, hsig, rfl⟩ :=
      marshalledSignedData_spec _ _ _ _ _ _ hm
    obtain ⟨-, hsd⟩ := buildSignedData_next _ _ _ _ _ hb
    exact ⟨_, _, enc, hm, by rw [hsd], by rw [hsd], rfl, ⟨B, hB, hsig⟩, henc, hout⟩
  · rintro ⟨sd, si, enc, hm, -, -, -, -, henc, hout⟩
    exact (Sign2_ok_iff _ _ _ _ _ _).mpr ⟨sd, hm, (marshalEnvelope_ok_iff _ _ _).mpr ⟨enc, henc, hout⟩⟩

/-- C7, at a concrete input: the returned bytes are the marshalling of the wrapper around the
marshalled SignedData. -/
theorem Sign2_returns_wrapped_signedData_witness :
    Sign2 demoEnv demoReader demoCert demoKey none = .ret (some demoEnvelope) none ∧
      ∃ sd enc, marshalledSignedData demoEnv demoReader demoCert demoKey none = some sd ∧
        sd.Version = 1 ∧
        demoMarshal (.signedData sd) = .ok enc ∧
        demoMarshal (.signedDataWrapper
          { Oid := [1, 2, 840, 113549, 1, 7, 2]
            SignedData := { Class := 2, Tag := 0, Bytes := enc, IsCompound := true } })
          = .ok demoEnvelope := by
  have hrun : Sign2 demoEnv demoReader demoCert demoKey none = .ret (some demoEnvelope) none := by
    decide!
  obtain ⟨sd, si, enc, hm, hv, -, -, -, henc, hout⟩ :=
    (Sign2_returns_wrapped_signedData demoEnv demoReader demoCert demoKey none demoEnvelope).mp
      hrun
  exact ⟨hrun, sd, enc, hm, hv, henc, hout⟩

/-- C8: `Sign2` aborts at the first failing stage. A failed stream read is returned as it is,
whatever the other primitives would do. Otherwise the error of the first failing stage among
marshalling the attributes, signing, marshalling SignedData and marshalling the wrapper is
returned, and when all succeed the wrapper bytes are returned without an error. An error is
always returned with a nil byte slice, bytes always without an error. The encoder is taken to
produce at least one byte for an attribute list, as DER does. -/
theorem Sign2_aborts_at_first_failure (env : Env) (r : Reader) (cert : Certificate)
    (priv : PrivateKey) (intermediate : Option Certificate)
    (hder : ∀ a B, env.Marshal (.attributes a) = .ok B → B ≠ []) :
    (∀ e, r.failure = some e →
      ∀ (env' : Env) (priv' : PrivateKey),
        Sign2 env' r cert priv' intermediate = .ret none (some e)) ∧
    (r.failure = none →
      ∃ sd si, buildSignedData env r cert intermediate = .next sd ∧ sd.SignerInfos = [si] ∧
        (∀ e, env.Marshal (.attributes si.AuthenticatedAttributes) = .error e →
          Sign2 env r cert priv intermediate = .ret none (some e)) ∧
        (∀ B, env.Marshal (.attributes si.AuthenticatedAttributes) = .ok B →
          (∀ e, env.SignPKCS1v15 priv CryptoHash.SHA256 (env.sha256 (B.set 0 0x31)) = .error e →
            Sign2 env r cert priv intermediate = .ret none (some e)) ∧
          (∀ sig, env.SignPKCS1v15 priv CryptoHash.SHA256 (env.sha256 (B.set 0 0x31)) = .ok sig →
            (∀ e, env.Marshal (.signedData
                { sd with SignerInfos := [{ si with EncryptedDigest := sig }] }) = .error e →
              Sign2 env r cert priv intermediate = .ret none (some e)) ∧
            (∀ enc, env.Marshal (.signedData
                { sd with SignerInfos := [{ si with EncryptedDigest := sig }] }) = .ok enc →
              (∀ e, env.Marshal (.signedDataWrapper
                  { Oid := env.oidPKCS7SignedData
                    SignedData := { Class := 2, Tag := 0, Bytes := enc, IsCompound := true } })
                  = .error e →
                Sign2 env r cert priv intermediate = .ret none (some e)) ∧
              (∀ out, env.Marshal (.signedDataWrapper
                  { Oid := env.oidPKCS7SignedData
                    SignedData := { Class := 2, Tag := 0, Bytes := enc, IsCompound := true } })
                  = .ok out →
                Sign2 env r cert priv intermediate = .ret (some out) none))))) ∧
    ((∃ e, Sign2 env r cert priv intermediate = .ret none (some e)) ∨
      (∃ out, Sign2 env r cert priv intermediate = .ret (some out) none)) := by
  refine ⟨?_, ?_, ?_⟩
  · intro e hf env' priv'
    exact Sign2_of_read_failure env' r cert priv' intermediate e hf
  · intro hread
    obtain ⟨sd, hb⟩ := buildSignedData_of_read env r cert intermediate hread
    obtain ⟨-, hsd⟩ := buildSignedData_next _ _ _ _ _ hb
    have hex : ∃ si, sd.SignerInfos = [si] := by
      rw [hsd]
      exact ⟨_, rfl⟩
    obtain ⟨si, hsi⟩ := hex
    refine ⟨sd, si, hb, hsi, ?_, ?_⟩
    · intro e hB
      rw [Sign2_of_build _ _ _ _ _ _ hb, signAttributes_of_marshal_error _ _ _ _ _ _ hsi hB]
    · intro B hB
      have hne := hder _ _ hB
      refine ⟨?_, ?_⟩
      · intro e hsig
        rw [Sign2_of_build _ _ _ _ _ _ hb,
          signAttributes_of_sign_error _ _ _ _ _ _ _ hsi hB hne hsig]
      · intro sig hsig
        have hs : signAttributes env priv sd =
            .next { sd with SignerInfos := [{ si with EncryptedDigest := sig }] } :=
          (signAttributes_next_iff _ _ _ _).mpr ⟨si, [], B, sig, hsi, hB, hne, hsig, rfl⟩
        have hS : Sign2 env r cert priv intermediate =
            marshalEnvelope env { sd with SignerInfos := [{ si with EncryptedDigest := sig }] } := by
          rw [Sign2_of_build _ _ _ _ _ _ hb, hs]
        rw [hS]
        refine ⟨?_, ?_⟩
        · intro e henc
          simp [marshalEnvelope, henc]
        · intro enc henc
          refine ⟨?_, ?_⟩
          · intro e hw
            simp [marshalEnvelope, henc, hw]
          · intro out hw
            simp [marshalEnvelope, henc, hw]
  · cases hb : buildSignedData env r cert intermediate with
    | ret o e =>
      obtain ⟨rfl, err, rfl, -⟩ := buildSignedData_ret _ _ _ _ _ _ hb
      exact Or.inl ⟨err, by simp [Sign2, hb]⟩
    | panic => exact absurd hb (buildSignedData_ne_panic _ _ _ _)
    | next sd =>
      rw [Sign2_of_build _ _ _ _ _ _ hb]
      cases hs : signAttributes env priv sd with
      | ret o e =>
        obtain ⟨rfl, err, rfl, -⟩ := signAttributes_ret _ _ _ _ _ hs
        exact Or.inl ⟨err, rfl⟩
      | panic =>
        obtain ⟨-, hsd⟩ := buildSignedData_next _ _ _ _ _ hb
        rcases signAttributes_panic _ _ _ hs with hnil | ⟨si, others, -, hB⟩
        · rw [hsd] at hnil
          simp at hnil
        · exact absurd rfl (hder _ _ hB)
      | next sd' =>
        rcases marshalEnvelope_cases env sd' with ⟨e, he, -⟩ | ⟨out, hout⟩
        · exact Or.inl ⟨e, he⟩
        · exact Or.inr ⟨out, hout⟩

/-- C8, at a concrete input: the encoder never yields an empty encoding, and a reader that fails
after its first chunk makes `Sign2` return nil bytes and the reader's error. -/
theorem Sign2_aborts_at_first_failure_witness :
    (∀ a B, demoEnv.Marshal (.attributes a) = .ok B → B ≠ []) ∧
      demoBrokenReader.failure = some "unexpected EOF" ∧
      Sign2 demoEnv demoBrokenReader demoCert demoKey none
        = .ret none (some "unexpected EOF") ∧
      ((∃ e, Sign2 demoEnv demoReader demoCert demoSmallKey none = .ret none (some e)) ∨
        (∃ out, Sign2 demoEnv demoReader demoCert demoSmallKey none = .ret (some out) none)) :=
  ⟨fun _ _ h => demoMarshal_ne_nil _ _ h, rfl,
    (Sign2_aborts_at_first_failure demoEnv demoBrokenReader demoCert demoKey none
      (fun _ _ h => demoMarshal_ne_nil _ _ h)).1 "unexpected EOF" rfl demoEnv demoKey,
    (Sign2_aborts_at_first_failure demoEnv demoReader demoCert demoSmallKey none
      (fun _ _ h => demoMarshal_ne_nil _ _ h)).2.2⟩

/-- C10, refuted as stated: the key is well formed (a modulus of 1128 bits, the product of its
two primes, with matching exponents); with a signer certificate whose raw encoding is empty,
with one whose raw encoding is cut short, and with an intermediate certificate whose raw
encoding is empty, `Sign2` returns an envelope and no error. -/
theorem Sign2_accepts_empty_or_malformed_certificate :
    demoEmptyCert.Raw = [] ∧
      demoBitLen 8192 demoKey.N = 1128 ∧
      demoKey.Primes.prod = demoKey.N ∧
      demoKey.E * demoKey.D % ((demoP - 1) * (demoQ - 1)) = 1 ∧
      Sign2 demoEnv demoReader demoEmptyCert demoKey none
        = .ret (some demoEmptyCertEnvelope) none ∧
      Sign2 demoEnv demoReader demoTruncatedCert demoKey none
        = .ret (some demoTruncatedCertEnvelope) none ∧
      Sign2 demoEnv demoReader demoCert demoKey (some demoEmptyCert)
        = .ret (some demoEmptyIntermediateEnvelope) none := by
  refine ⟨rfl, ?_, ?_, ?_, ?_, ?_, ?_⟩ <;> decide!

/-- C10, amended: `Sign2` does not check certificate encodings. After a successful read the
raw bytes of the certificate and of the intermediate certificate are the bytes of the bundle,
whatever they are, and `Sign2` returns an error exactly when the stream read returns it or
when, on the values of this very run, marshalling the attributes, signing their digest,
marshalling SignedData or marshalling the wrapper is the first stage to return it. -/
theorem Sign2_fails_only_where_a_stage_fails (env : Env) (r : Reader) (cert : Certificate)
    (priv : PrivateKey) (intermediate : Option Certificate) :
    (r.failure = none →
      ∃ sd, buildSignedData env r cert intermediate = .next sd ∧
        sd.Certificates.Bytes = cert.Raw ++ (intermediate.map Certificate.Raw).getD []) ∧
    ∀ e, Sign2 env r cert priv intermediate = .ret none (some e) ↔
      (r.failure = some e ∨
        (r.failure = none ∧
          ∃ sd si, buildSignedData env r cert intermediate = .next sd ∧
            sd.SignerInfos = [si] ∧
            sd.Certificates.Bytes = cert.Raw ++ (intermediate.map Certificate.Raw).getD [] ∧
            (env.Marshal (.attributes si.AuthenticatedAttributes) = .error e ∨
              ∃ B, env.Marshal (.attributes si.AuthenticatedAttributes) = .ok B ∧ B ≠ [] ∧
                (env.SignPKCS1v15 priv CryptoHash.SHA256 (env.sha256 (B.set 0 0x31)) = .error e ∨
                  ∃ sig,
                    env.SignPKCS1v15 priv CryptoHash.SHA256 (env.sha256 (B.set 0 0x31))
                      = .ok sig ∧
                    (env.Marshal (.signedData
                        { sd with SignerInfos := [{ si with EncryptedDigest := sig }] })
                        = .error e ∨
                      ∃ enc,
                        env.Marshal (.signedData
                          { sd with SignerInfos := [{ si with EncryptedDigest := sig }] })
                          = .ok enc ∧
                        env.Marshal (.signedDataWrapper
                          { Oid := env.oidPKCS7SignedData
                            SignedData :=
                              { Class := 2, Tag := 0, Bytes := enc, IsCompound := true } })
                          = .error e))))) := by
  have hbundle : ∀ sd, buildSignedData env r cert intermediate = .next sd →
      sd.Certificates.Bytes = cert.Raw ++ (intermediate.map Certificate.Raw).getD [] := by
    intro sd hb
    obtain ⟨-, hsd⟩ := buildSignedData_next _ _ _ _ _ hb
    rw [hsd]
    cases intermediate <;> simp
  refine ⟨?_, ?_⟩
  · intro hread
    obtain ⟨sd, hb⟩ := buildSignedData_of_read env r cert intermediate hread
    exact ⟨sd, hb, hbundle sd hb⟩
  intro e
  constructor
  · intro h
    cases hb : buildSignedData env r cert intermediate with
    | ret o err =>
      obtain ⟨rfl, err', rfl, hf⟩ := buildSignedData_ret _ _ _ _ _ _ hb
      simp only [Sign2, hb, Outcome.ret.injEq, Option.some.injEq, true_and] at h
      subst h
      exact Or.inl hf
    | panic => exact absurd hb (buildSignedData_ne_panic _ _ _ _)
    | next sd =>
      obtain ⟨hread, hsd⟩ := buildSignedData_next _ _ _ _ _ hb
      have hex : ∃ si, sd.SignerInfos = [si] := by
        rw [hsd]
        exact ⟨_, rfl⟩
      obtain ⟨si, hsi⟩ := hex
      refine Or.inr ⟨hread, sd, si, rfl, hsi, hbundle sd hb, ?_⟩
      rw [Sign2_of_build _ _ _ _ _ _ hb] at h
      cases hs : signAttributes env priv sd with
      | ret o err =>
        obtain ⟨rfl, err', rfl, si₁, others, hsi₁, hcase⟩ := signAttributes_ret _ _ _ _ _ hs
        simp only [hs, Outcome.ret.injEq, Option.some.injEq, true_and] at h
        subst h
        rw [hsi] at hsi₁
        simp only [List.cons.injEq] at hsi₁
        obtain ⟨rfl, -⟩ := hsi₁
        rcases hcase with hB | ⟨B, hB, hne, hsig⟩
        · exact Or.inl hB
        · exact Or.inr ⟨B, hB, hne, Or.inl hsig⟩
      | panic => simp [hs] at h
      | next sd' =>
        simp only [hs] at h
        obtain ⟨si₁, others, B, sig, hsi₁, hB, hne, hsig, rfl⟩ :=
          (signAttributes_next_iff _ _ _ _).mp hs
        rw [hsi] at hsi₁
        simp only [List.cons.injEq] at hsi₁
        obtain ⟨rfl, rfl⟩ := hsi₁
        refine Or.inr ⟨B, hB, hne, Or.inr ⟨sig, hsig, ?_⟩⟩
        rcases marshalEnvelope_cases env
            { sd with SignerInfos := [{ si with EncryptedDigest := sig }] } with
          ⟨e', he, hcase⟩ | ⟨out, hout⟩
        · rw [he] at h
          simp only [Outcome.ret.injEq, Option.some.injEq, true_and] at h
          subst h
          exact hcase
        · rw [hout] at h
          simp at h
  · rintro (hf | ⟨-, sd, si, hb, hsi, -, hcase⟩)
    · exact Sign2_of_read_failure _ _ _ _ _ _ hf
    · rw [Sign2_of_build _ _ _ _ _ _ hb]
      rcases hcase with hB | ⟨B, hB, hne, hsig | ⟨sig, hsig, hcase⟩⟩
      · rw [signAttributes_of_marshal_error _ _ _ _ _ _ hsi hB]
      · rw [signAttributes_of_sign_error _ _ _ _ _ _ _ hsi hB hne hsig]
      · have hs : signAttributes env priv sd =
            .next { sd with SignerInfos := [{ si with EncryptedDigest := sig }] } :=
          (signAttributes_next_iff _ _ _ _).mpr ⟨si, [], B, sig, hsi, hB, hne, hsig, rfl⟩
        rw [hs]
        rcases hcase with henc | ⟨enc, henc, hw⟩
        · simp [marshalEnvelope, henc]
        · simp [marshalEnvelope, henc, hw]

/-- C10 amended, at a concrete input: with the certificate whose raw encoding is empty and a
key too small for the padded digest, the error `Sign2` returns is the one of the signing
primitive on the digest of the attributes of this run, and the bundle is empty. -/
theorem Sign2_fails_only_where_a_stage_fails_witness :
    Sign2 demoEnv demoReader demoEmptyCert demoSmallKey none
        = .ret none (some "crypto/rsa: message too long for RSA key size") ∧
      (∃ sd, buildSignedData demoEnv demoReader demoEmptyCert none = .next sd ∧
        sd.Certificates.Bytes = []) ∧
      ∃ sd si B, buildSignedData demoEnv demoReader demoEmptyCert none = .next sd ∧
        sd.SignerInfos = [si] ∧
        demoMarshal (.attributes si.AuthenticatedAttributes) = .ok B ∧
        demoSign demoSmallKey CryptoHash.SHA256 (demoSha256 (B.set 0 0x31))
          = .error "crypto/rsa: message too long for RSA key size" := by
  have hrun : Sign2 demoEnv demoReader demoEmptyCert demoSmallKey none
      = .ret none (some "crypto/rsa: message too long for RSA key size") := by
    decide
  obtain ⟨hbundle, hiff⟩ :=
    Sign2_fails_only_where_a_stage_fails demoEnv demoReader demoEmptyCert demoSmallKey none
  refine ⟨hrun, ?_, ?_⟩
  · obtain ⟨sd, hb, hbytes⟩ := hbundle rfl
    exact ⟨sd, hb, hbytes⟩
  · rcases (hiff _).mp hrun with hf | ⟨-, sd, si, hb, hsi, -, hB | ⟨B, hB, -, hcase⟩⟩
    · exact absurd hf (by decide)
    · exfalso
      obtain ⟨-, hsd⟩ := buildSignedData_next _ _ _ _ _ hb
      rw [hsd] at hsi
      simp only [List.cons.injEq, and_true] at hsi
      subst hsi
      have hB' := congrArg Except.toOption hB
      revert hB'
      decide
    · rcases hcase with hsig | ⟨sig, hsig, -⟩
      · exact ⟨sd, si, B, hb, hsi, hB, hsig⟩
      · exfalso
        have hk : (demoBitLen 8192 demoSmallKey.N + 7) / 8 <
            (demoHashInfo CryptoHash.SHA256).2.length + (demoHashInfo CryptoHash.SHA256).1 + 11 := by
          decide
        have hsmall : ∀ d : Octets, demoSign demoSmallKey CryptoHash.SHA256 d ≠ .ok sig := by
          intro d
          simp only [demoSign]
          split_ifs with h1
          · simp
          · simp
        exact hsmall (demoSha256 (B.set 0 0x31)) hsig

end pkcs7
